import Mathlib

/-!
Verification model of the compositor GL quad-rasterization backend
(cc/output/gl_renderer.cc).  The renderer state, the texture-quad batching
cache, the anti-aliasing setup, the background-filter compositor and the
per-material dispatch routines are shallowly embedded as pure functions
over explicit state, with the GL calls the code issues modelled as a
command trace.  Floating-point scalars are modelled by rationals, GL
object ids by naturals, and the external collaborators (resource
provider, filter evaluator, offscreen contexts) by explicit oracle
records, so every definition is executable.
-/

namespace GLRendererModel

/-- A 2D point with rational coordinates (models gfx::PointF). -/
structure PointQ where
  px : ℚ
  py : ℚ
deriving DecidableEq, Repr

/-- An integer rectangle (models gfx::Rect): origin plus size. -/
structure RectI where
  rx : ℤ
  ry : ℤ
  rw : ℤ
  rh : ℤ
deriving DecidableEq, Repr

def RectI.right (r : RectI) : ℤ := r.rx + r.rw

def RectI.bottom (r : RectI) : ℤ := r.ry + r.rh

/-- A rational rectangle (models gfx::RectF). -/
structure RectQ where
  qx : ℚ
  qy : ℚ
  qw : ℚ
  qh : ℚ
deriving DecidableEq, Repr

def RectQ.right (r : RectQ) : ℚ := r.qx + r.qw

def RectQ.bottom (r : RectQ) : ℚ := r.qy + r.qh

def RectQ.ofRectI (r : RectI) : RectQ :=
  ⟨(r.rx : ℚ), (r.ry : ℚ), (r.rw : ℚ), (r.rh : ℚ)⟩

/-- A four-point quad (models gfx::QuadF); p1 is the origin corner, the
points run clockwise: top-left, top-right, bottom-right, bottom-left. -/
structure QuadF where
  p1 : PointQ
  p2 : PointQ
  p3 : PointQ
  p4 : PointQ
deriving DecidableEq, Repr

def QuadF.ofRectQ (r : RectQ) : QuadF :=
  ⟨⟨r.qx, r.qy⟩, ⟨r.right, r.qy⟩, ⟨r.right, r.bottom⟩, ⟨r.qx, r.bottom⟩⟩

def QuadF.ofRectI (r : RectI) : QuadF := QuadF.ofRectQ (RectQ.ofRectI r)

/-- Modelled from the spec: gfx::QuadF::IsRectilinear (ui/gfx, not under
src/) decides whether the quad is an axis-aligned rectangle in either of
the two corner orientations; the float epsilon comparison is modelled by
exact rational equality. -/
def QuadF.IsRectilinear (q : QuadF) : Bool :=
  (q.p1.px == q.p2.px && q.p2.py == q.p3.py &&
   q.p3.px == q.p4.px && q.p4.py == q.p1.py) ||
  (q.p1.py == q.p2.py && q.p2.px == q.p3.px &&
   q.p3.py == q.p4.py && q.p4.px == q.p1.px)

/-- Axis-aligned bounding box of a quad (models gfx::QuadF::BoundingBox). -/
def QuadF.BoundingBox (q : QuadF) : RectQ :=
  let minx := min (min q.p1.px q.p2.px) (min q.p3.px q.p4.px)
  let miny := min (min q.p1.py q.p2.py) (min q.p3.py q.p4.py)
  let maxx := max (max q.p1.px q.p2.px) (max q.p3.px q.p4.px)
  let maxy := max (max q.p1.py q.p2.py) (max q.p3.py q.p4.py)
  ⟨minx, miny, maxx - minx, maxy - miny⟩

/-- Modelled from the spec: gfx::ToRoundedInt (ui/gfx, not under src/)
rounds half away from zero. -/
def roundHalfAway (q : ℚ) : ℤ :=
  if 0 ≤ q then ⌊q + 1/2⌋ else ⌈q - 1/2⌉

/-- Modelled from the spec: gfx::IsNearestRectWithinDistance (ui/gfx, not
under src/) holds when each of the four rect edges lies strictly within
the given distance of its nearest integer coordinate — the sub-pixel
epsilon test the spec describes as lying within 1/1024 of a pixel
boundary. -/
def IsNearestRectWithinDistance (r : RectQ) (d : ℚ) : Bool :=
  |(roundHalfAway r.qx : ℚ) - r.qx| < d &&
  |(roundHalfAway r.qy : ℚ) - r.qy| < d &&
  |(roundHalfAway r.right : ℚ) - r.right| < d &&
  |(roundHalfAway r.bottom : ℚ) - r.bottom| < d

/-- Smallest unit that impacts anti-aliasing output (kAntiAliasingEpsilon
in the source): 1/1024. -/
def kAntiAliasingEpsilon : ℚ := 1 / 1024

/-- A 4x4 rational matrix in row-major notation (models gfx::Transform /
SkMatrix44): entry mRC sits at row R, column C. -/
structure Mat4 where
  m00 : ℚ
  m01 : ℚ
  m02 : ℚ
  m03 : ℚ
  m10 : ℚ
  m11 : ℚ
  m12 : ℚ
  m13 : ℚ
  m20 : ℚ
  m21 : ℚ
  m22 : ℚ
  m23 : ℚ
  m30 : ℚ
  m31 : ℚ
  m32 : ℚ
  m33 : ℚ
deriving DecidableEq, Repr

def Mat4.id : Mat4 :=
  ⟨1, 0, 0, 0, 0, 1, 0, 0, 0, 0, 1, 0, 0, 0, 0, 1⟩

/-- Row-major matrix product (models SkMatrix44 concatenation). -/
def Mat4.mul (a b : Mat4) : Mat4 :=
  ⟨a.m00 * b.m00 + a.m01 * b.m10 + a.m02 * b.m20 + a.m03 * b.m30,
   a.m00 * b.m01 + a.m01 * b.m11 + a.m02 * b.m21 + a.m03 * b.m31,
   a.m00 * b.m02 + a.m01 * b.m12 + a.m02 * b.m22 + a.m03 * b.m32,
   a.m00 * b.m03 + a.m01 * b.m13 + a.m02 * b.m23 + a.m03 * b.m33,
   a.m10 * b.m00 + a.m11 * b.m10 + a.m12 * b.m20 + a.m13 * b.m30,
   a.m10 * b.m01 + a.m11 * b.m11 + a.m12 * b.m21 + a.m13 * b.m31,
   a.m10 * b.m02 + a.m11 * b.m12 + a.m12 * b.m22 + a.m13 * b.m32,
   a.m10 * b.m03 + a.m11 * b.m13 + a.m12 * b.m23 + a.m13 * b.m33,
   a.m20 * b.m00 + a.m21 * b.m10 + a.m22 * b.m20 + a.m23 * b.m30,
   a.m20 * b.m01 + a.m21 * b.m11 + a.m22 * b.m21 + a.m23 * b.m31,
   a.m20 * b.m02 + a.m21 * b.m12 + a.m22 * b.m22 + a.m23 * b.m32,
   a.m20 * b.m03 + a.m21 * b.m13 + a.m22 * b.m23 + a.m23 * b.m33,
   a.m30 * b.m00 + a.m31 * b.m10 + a.m32 * b.m20 + a.m33 * b.m30,
   a.m30 * b.m01 + a.m31 * b.m11 + a.m32 * b.m21 + a.m33 * b.m31,
   a.m30 * b.m02 + a.m31 * b.m12 + a.m32 * b.m22 + a.m33 * b.m32,
   a.m30 * b.m03 + a.m31 * b.m13 + a.m32 * b.m23 + a.m33 * b.m33⟩

/-- Determinant of a 4x4 matrix by cofactor expansion over the 2x2 minors
of the last two rows. -/
def Mat4.det (a : Mat4) : ℚ :=
  let s0 := a.m00 * a.m11 - a.m01 * a.m10
  let s1 := a.m00 * a.m12 - a.m02 * a.m10
  let s2 := a.m00 * a.m13 - a.m03 * a.m10
  let s3 := a.m01 * a.m12 - a.m02 * a.m11
  let s4 := a.m01 * a.m13 - a.m03 * a.m11
  let s5 := a.m02 * a.m13 - a.m03 * a.m12
  let c5 := a.m22 * a.m33 - a.m23 * a.m32
  let c4 := a.m21 * a.m33 - a.m23 * a.m31
  let c3 := a.m21 * a.m32 - a.m22 * a.m31
  let c2 := a.m20 * a.m33 - a.m23 * a.m30
  let c1 := a.m20 * a.m32 - a.m22 * a.m30
  let c0 := a.m20 * a.m31 - a.m21 * a.m30
  s0 * c5 - s1 * c4 + s2 * c3 + s3 * c2 - s4 * c1 + s5 * c0

/-- Modelled from the spec: gfx::Transform::IsInvertible (ui/gfx, not
under src/) holds when the matrix determinant is nonzero. -/
def Mat4.IsInvertible (a : Mat4) : Bool := !(a.det == 0)

/-- Modelled from the spec: gfx::Transform::FlattenTo2d (ui/gfx, not
under src/) drops the z dependence: the third row becomes (0,0,1,0) and
the remaining third-column entries become 0. -/
def Mat4.FlattenTo2d (a : Mat4) : Mat4 :=
  ⟨a.m00, a.m01, 0, a.m03,
   a.m10, a.m11, 0, a.m13,
   0, 0, 1, 0,
   a.m30, a.m31, 0, a.m33⟩

/-- Modelled from the spec: gfx::Transform::Translate post-multiplies by
a translation, applying it in the local coordinates of the transform. -/
def Mat4.Translate (a : Mat4) (tx ty : ℚ) : Mat4 :=
  a.mul ⟨1, 0, 0, tx, 0, 1, 0, ty, 0, 0, 1, 0, 0, 0, 0, 1⟩

/-- Modelled from the spec: gfx::Transform::Scale post-multiplies by a
scale, applying it in the local coordinates of the transform. -/
def Mat4.Scale (a : Mat4) (sx sy : ℚ) : Mat4 :=
  a.mul ⟨sx, 0, 0, 0, 0, sy, 0, 0, 0, 0, 1, 0, 0, 0, 0, 1⟩

/-- Homogeneous w component produced when mapping a 2D point. -/
def Mat4.homW (a : Mat4) (p : PointQ) : ℚ :=
  a.m30 * p.px + a.m31 * p.py + a.m33

/-- Modelled from the spec: MathUtil::MapPoint (cc/base/math_util, not
under src/) maps a 2D point through the transform; the point is clipped
when its homogeneous w is not positive.  Rational division is total with
x / 0 = 0; the claims never inspect the payload of a clipped point. -/
def Mat4.MapPoint (a : Mat4) (p : PointQ) : PointQ × Bool :=
  let hx := a.m00 * p.px + a.m01 * p.py + a.m03
  let hy := a.m10 * p.px + a.m11 * p.py + a.m13
  let hw := a.homW p
  (⟨hx / hw, hy / hw⟩, decide (hw ≤ 0))

/-- Modelled from the spec: MathUtil::MapQuad maps the four corners and
reports the quad clipped when any corner is clipped. -/
def Mat4.MapQuad (a : Mat4) (q : QuadF) : QuadF × Bool :=
  let r1 := a.MapPoint q.p1
  let r2 := a.MapPoint q.p2
  let r3 := a.MapPoint q.p3
  let r4 := a.MapPoint q.p4
  (⟨r1.1, r2.1, r3.1, r4.1⟩, r1.2 || r2.2 || r3.2 || r4.2)

/-- SkColor accessor: alpha byte (bits 24-31 of the 32-bit ARGB word). -/
def SkColorGetA (c : ℕ) : ℕ := c / 2 ^ 24 % 256

/-- SkColor accessor: red byte (bits 16-23). -/
def SkColorGetR (c : ℕ) : ℕ := c / 2 ^ 16 % 256

/-- SkColor accessor: green byte (bits 8-15). -/
def SkColorGetG (c : ℕ) : ℕ := c / 2 ^ 8 % 256

/-- SkColor accessor: blue byte (bits 0-7). -/
def SkColorGetB (c : ℕ) : ℕ := c % 256

/-- A packed vector of four floats, as accumulated per quad by the
texture batching cache (struct Float4 of the source). -/
structure Float4 where
  f0 : ℚ
  f1 : ℚ
  f2 : ℚ
  f3 : ℚ
deriving DecidableEq, Repr

/-- GL_TRIANGLES. -/
def GLTriangles : ℕ := 4

/-- GL_LINE_LOOP. -/
def GLLineLoop : ℕ := 2

/-- GL_TEXTURE_2D. -/
def GLTexture2D : ℕ := 3553

/-- GL_TEXTURE_EXTERNAL_OES. -/
def GLTextureExternal : ℕ := 36197

/-- GL_TEXTURE_RECTANGLE_ARB. -/
def GLTextureRectangle : ℕ := 34037

/-- One GL call issued by the renderer.  Uniform uploads carry their
payload where a claim inspects it (colors, batched per-instance arrays)
and only the element count otherwise. -/
inductive GLCmd where
  | enableBlend
  | disableBlend
  | enableScissor
  | disableScissor
  | scissorRect (x y w h : ℤ)
  | useProgram (p : ℕ)
  | bindFramebuffer (fb : ℕ)
  | framebufferTexture2D (tex : ℕ)
  | bindTexture (target : ℕ) (tex : ℕ)
  | activeTexture (unit : ℕ)
  | uniform1i (loc : ℤ) (v : ℤ)
  | uniform1f (loc : ℤ) (v : ℚ)
  | uniform2f (loc : ℤ) (a b : ℚ)
  | uniform4f (loc : ℤ) (a b c d : ℚ)
  | uniform3fv (loc : ℤ) (count : ℕ)
  | uniform2fv (loc : ℤ) (count : ℕ)
  | uniform1fv (loc : ℤ) (vs : List ℚ)
  | uniform4fv (loc : ℤ) (vs : List Float4)
  | uniformMatrix4fv (loc : ℤ) (ms : List Mat4)
  | uniformMatrix3fv (loc : ℤ) (count : ℕ)
  | blendFuncSeparateAlpha
  | blendFuncPremult
  | drawElements (mode : ℕ) (count : ℕ)
  | texParameterFilter (f : ℕ)
  | uniformMatrix4fvN (loc : ℤ) (count : ℕ)
  | uniform4fvN (loc : ℤ) (count : ℕ)
  | flushContext
  | lineWidth (w : ℚ)
  | viewportCmd (w h : ℤ)
  | setPixels (res : ℕ)
  | copyTexImage2D (x y w h : ℤ)
deriving DecidableEq, Repr

/-- Whether a command is an indexed draw call. -/
def GLCmd.isDrawCall : GLCmd → Bool
  | .drawElements _ _ => true
  | _ => false

/-- The draw calls contained in a trace, in order. -/
def drawCalls (t : List GLCmd) : List GLCmd := t.filter GLCmd.isDrawCall

/-- Whether a command changes the scissor rect or scissor-test enable
state. -/
def GLCmd.isScissorStateChange : GLCmd → Bool
  | .enableScissor => true
  | .disableScissor => true
  | .scissorRect _ _ _ _ => true
  | _ => false

/-- Coordinate precision of a shader program variant. -/
inductive TexCoordPrecision where
  | medium
  | high
deriving DecidableEq, Repr

/-- Modelled from the spec: TexCoordPrecisionRequired (shader helper, not
under src/) selects the higher-precision variant when either coordinate
of the bottom-right extremity exceeds the configurable threshold. -/
def TexCoordPrecisionRequired (threshold : ℤ) (maxX maxY : ℤ) :
    TexCoordPrecision :=
  if threshold < maxX || threshold < maxY then .high else .medium

/-- The shader program families of the renderer (one wrapper class per
family in the source). -/
inductive ProgramKind where
  | texture
  | textureFlip
  | textureIOSurface
  | tile
  | tileOpaque
  | tileSwizzle
  | tileSwizzleOpaque
  | tileAA
  | tileSwizzleAA
  | tileCheckerboard
  | debugBorder
  | solidColor
  | solidColorAA
  | renderPass
  | renderPassAA
  | renderPassMask
  | renderPassMaskAA
  | renderPassColorMatrix
  | renderPassColorMatrixAA
  | renderPassMaskColorMatrix
  | renderPassMaskColorMatrixAA
  | videoYUV
  | videoStream
deriving DecidableEq, Repr

/-- Enumeration index of a program kind. -/
def ProgramKind.index : ProgramKind → ℕ
  | .texture => 0
  | .textureFlip => 1
  | .textureIOSurface => 2
  | .tile => 3
  | .tileOpaque => 4
  | .tileSwizzle => 5
  | .tileSwizzleOpaque => 6
  | .tileAA => 7
  | .tileSwizzleAA => 8
  | .tileCheckerboard => 9
  | .debugBorder => 10
  | .solidColor => 11
  | .solidColorAA => 12
  | .renderPass => 13
  | .renderPassAA => 14
  | .renderPassMask => 15
  | .renderPassMaskAA => 16
  | .renderPassColorMatrix => 17
  | .renderPassColorMatrixAA => 18
  | .renderPassMaskColorMatrix => 19
  | .renderPassMaskColorMatrixAA => 20
  | .videoYUV => 21
  | .videoStream => 22

/-- GL program object id of a (kind, precision) variant.  GL ids of
distinct live program objects are distinct and nonzero; the model makes
them so by enumeration. -/
def progId (k : ProgramKind) (p : TexCoordPrecision) : ℕ :=
  1 + 2 * k.index + (if p == TexCoordPrecision.high then 1 else 0)

/-- Uniform/attribute location schema shared by the program wrappers.
The source queries these from GL per program; the model assigns one
fixed, valid (non-negative) slot per logical uniform. -/
def matrixLoc : ℤ := 0

def colorLoc : ℤ := 1

def pointLoc : ℤ := 2

def texScaleLoc : ℤ := 3

def edgeLoc : ℤ := 4

def samplerLoc : ℤ := 5

def alphaLoc : ℤ := 6

def texTransformLoc : ℤ := 7

def vertexOpacityLoc : ℤ := 8

def vertexTexTransformLoc : ℤ := 9

def fragmentTexTransformLoc : ℤ := 10

def maskSamplerLoc : ℤ := 11

def maskTexCoordScaleLoc : ℤ := 12

def maskTexCoordOffsetLoc : ℤ := 13

def colorMatrixLoc : ℤ := 14

def colorOffsetLoc : ℤ := 15

def frequencyLoc : ℤ := 16

def texMatrixLoc : ℤ := 17

def yTextureLoc : ℤ := 18

def uTextureLoc : ℤ := 19

def vTextureLoc : ℤ := 20

def yuvMatrixLoc : ℤ := 21

def yuvAdjLoc : ℤ := 22

/-- The texture batching cache (TextureDrawCache draw_cache_ of the
source): the batch key (program, resource, premultiplied-alpha flag,
blend requirement), the uniform locations captured from the program
binding, and the accumulated per-instance arrays. -/
structure DrawCache where
  program_id : ℕ
  resource_id : ℕ
  use_premultiplied_alpha : Bool
  needs_blending : Bool
  uv_xform_location : ℤ
  vertex_opacity_location : ℤ
  matrix_location : ℤ
  sampler_location : ℤ
  uv_xform_data : List Float4
  vertex_opacity_data : List ℚ
  matrix_data : List Mat4
deriving DecidableEq, Repr

def DrawCache.empty : DrawCache :=
  ⟨0, 0, false, false, -1, -1, -1, -1, [], [], []⟩

/-- The cache holds nothing: program id 0 and all per-instance arrays
empty.  This is the state FlushTextureQuadCache leaves behind. -/
def DrawCache.IsEmpty (c : DrawCache) : Prop :=
  c.program_id = 0 ∧ c.uv_xform_data = [] ∧
  c.vertex_opacity_data = [] ∧ c.matrix_data = []

instance (c : DrawCache) : Decidable c.IsEmpty := by
  unfold DrawCache.IsEmpty; infer_instance

/-- A render-pass texture cached across frames (CachedResource), keyed
by render-pass id in the render_pass_textures_ table; id 0 models an
unallocated GL texture. -/
structure CachedResource where
  rid : ℕ
  sw : ℤ
  sh : ℤ
deriving DecidableEq, Repr

/-- The mutable renderer state the embedded functions thread: the
draw-state shadow (blend, program, scissor), the texture batching cache,
the render-pass texture table and the precision threshold. -/
structure RState where
  draw_cache : DrawCache
  blend_shadow : Bool
  program_shadow : ℕ
  is_scissor_enabled : Bool
  scissor_rect : RectI
  render_pass_textures : List (ℕ × CachedResource)
  highp_threshold_min : ℤ
deriving DecidableEq, Repr

/-- Lookup in the render-pass texture table (render_pass_textures_.get). -/
def lookupRenderPassTexture (l : List (ℕ × CachedResource)) (k : ℕ) :
    Option CachedResource :=
  match l with
  | [] => none
  | (k2, v) :: rest => if k2 == k then some v else lookupRenderPassTexture rest k

/-- Transient per-frame state (DrawingFrame): matrices of the current
target plus the fields of the current render pass the claims inspect.
flipped_y records the flag InitializeMatrices was last given. -/
structure DrawingFrame where
  projection_matrix : Mat4
  window_matrix : Mat4
  has_transparent_background : Bool
  output_rect : RectI
  flipped_y : Bool
deriving DecidableEq, Repr

/-- Draw-state shadow setter for blending: issues the GL call only on
change (GLRenderer::SetBlendEnabled). -/
def SetBlendEnabled (s : RState) (enabled : Bool) : RState × List GLCmd :=
  if enabled == s.blend_shadow then (s, [])
  else ({ s with blend_shadow := enabled },
        [if enabled then GLCmd.enableBlend else GLCmd.disableBlend])

/-- Draw-state shadow setter for the bound program
(GLRenderer::SetUseProgram). -/
def SetUseProgram (s : RState) (p : ℕ) : RState × List GLCmd :=
  if p == s.program_shadow then (s, [])
  else ({ s with program_shadow := p }, [GLCmd.useProgram p])

/-- GLRenderer::SetShaderOpacity: upload the opacity uniform unless the
program lacks the location. -/
def SetShaderOpacity (opacity : ℚ) (loc : ℤ) : List GLCmd :=
  if loc == -1 then [] else [GLCmd.uniform1f loc opacity]

/-- GLRenderer::SetShaderQuadF: upload the four quad corners unless the
program lacks the location. -/
def SetShaderQuadF (_q : QuadF) (loc : ℤ) : List GLCmd :=
  if loc == -1 then [] else [GLCmd.uniform2fv loc 4]

/-- Modelled from the spec: DirectRenderer::QuadRectTransform (not under
src/) centers the shared unit geometry quad on the given rect: translate
to the rect center, then scale by the rect size. -/
def QuadRectTransform (quad_transform : Mat4) (r : RectQ) : Mat4 :=
  (quad_transform.Translate (r.qw / 2 + r.qx) (r.qh / 2 + r.qy)).Scale r.qw r.qh

/-- GLRenderer::DrawQuadGeometry: upload projection * quad-rect matrix
and issue one indexed draw of 6 indices. -/
def DrawQuadGeometry (frame : DrawingFrame) (draw_transform : Mat4)
    (quad_rect : RectQ) (matrix_location : ℤ) : List GLCmd :=
  let m := frame.projection_matrix.mul (QuadRectTransform draw_transform quad_rect)
  [GLCmd.uniformMatrix4fv matrix_location [m],
   GLCmd.drawElements GLTriangles 6]

/-- GLRenderer::FlushTextureQuadCache: no-op on an empty cache (program
id 0); otherwise set blend and program once, bind the batch texture,
switch to the separate alpha blend function for non-premultiplied alpha,
upload all accumulated per-instance arrays in single calls, issue one
indexed draw of 6 * N indices, restore the default blend function, and
clear the accumulator. -/
def FlushTextureQuadCache (s : RState) : RState × List GLCmd :=
  if s.draw_cache.program_id == 0 then (s, [])
  else
    let c := s.draw_cache
    let p1 := SetBlendEnabled s c.needs_blending
    let p2 := SetUseProgram p1.1 c.program_id
    let bindCmds := [GLCmd.uniform1i c.sampler_location 0,
                     GLCmd.bindTexture GLTexture2D c.resource_id]
    let premultPre :=
      if !c.use_premultiplied_alpha then [GLCmd.blendFuncSeparateAlpha] else []
    let uploadCmds := [GLCmd.uniformMatrix4fv c.matrix_location c.matrix_data,
                       GLCmd.uniform4fv c.uv_xform_location c.uv_xform_data,
                       GLCmd.uniform1fv c.vertex_opacity_location
                         c.vertex_opacity_data]
    let drawCmds := [GLCmd.drawElements GLTriangles (6 * c.matrix_data.length)]
    let premultPost :=
      if !c.use_premultiplied_alpha then [GLCmd.blendFuncPremult] else []
    ({ p2.1 with draw_cache :=
        { c with program_id := 0, uv_xform_data := [],
                 vertex_opacity_data := [], matrix_data := [] } },
     p1.2 ++ p2.2 ++ bindCmds ++ premultPre ++ uploadCmds ++ drawCmds ++
       premultPost)

/-- Quad fields shared by all materials (DrawQuad + SharedQuadState):
geometry rect, visible sub-rect, transform to target space, opacity, the
precomputed blending requirement (ShouldDrawWithBlending), the
anti-aliasable edge flags, and the visible content extremity used for
precision selection. -/
structure SharedQuadData where
  rect : RectI
  visible_rect : RectI
  visible_content_right : ℤ
  visible_content_bottom : ℤ
  transform : Mat4
  opacity : ℚ
  blending : Bool
  topEdge : Bool
  leftEdge : Bool
  rightEdge : Bool
  bottomEdge : Bool
deriving DecidableEq, Repr

/-- DrawQuad::IsEdge: the quad has at least one anti-aliasable edge. -/
def SharedQuadData.IsEdge (q : SharedQuadData) : Bool :=
  q.topEdge || q.leftEdge || q.rightEdge || q.bottomEdge

/-- A textured-content quad (TextureDrawQuad). -/
structure TextureQuad where
  q : SharedQuadData
  resource_id : ℕ
  premultiplied_alpha : Bool
  flipped : Bool
  uv_top_left : PointQ
  uv_bottom_right : PointQ
  vo0 : ℚ
  vo1 : ℚ
  vo2 : ℚ
  vo3 : ℚ
deriving DecidableEq, Repr

/-- The batch key EnqueueTextureQuad compares against the cache: selected
program variant id, texture resource id, premultiplied-alpha flag and
blend requirement. -/
structure BatchKey where
  program_id : ℕ
  resource_id : ℕ
  premultiplied_alpha : Bool
  blending : Bool
deriving DecidableEq, Repr

/-- The batch key of a texture quad under a renderer precision
threshold: the program variant is chosen by the flipped flag and the
required precision, exactly as the binding selection in
EnqueueTextureQuad. -/
def batchKey (threshold : ℤ) (quad : TextureQuad) : BatchKey :=
  let precision := TexCoordPrecisionRequired threshold
      quad.q.visible_content_right quad.q.visible_content_bottom
  let pid := progId
      (if quad.flipped then ProgramKind.textureFlip else ProgramKind.texture)
      precision
  ⟨pid, quad.resource_id, quad.premultiplied_alpha, quad.q.blending⟩

/-- Batch compatibility: two texture quads may share a batch exactly when
their batch keys agree. -/
def BatchCompatible (threshold : ℤ) (a b : TextureQuad) : Prop :=
  batchKey threshold a = batchKey threshold b

instance (threshold : ℤ) (a b : TextureQuad) :
    Decidable (BatchCompatible threshold a b) := by
  unfold BatchCompatible; infer_instance

/-- GLRenderer::EnqueueTextureQuad: select the texture program variant
(flipped or not, chosen precision); flush the in-flight batch first when
any key component differs or the batch already holds 8 quads, installing
the new key and locations; then append this quad's uv transform, four
vertex opacities and projected transform matrix to the accumulator. -/
def EnqueueTextureQuad (frame : DrawingFrame) (s : RState)
    (quad : TextureQuad) : RState × List GLCmd :=
  let key := batchKey s.highp_threshold_min quad
  let step :=
    if s.draw_cache.program_id != key.program_id ||
       s.draw_cache.resource_id != key.resource_id ||
       s.draw_cache.use_premultiplied_alpha != key.premultiplied_alpha ||
       s.draw_cache.needs_blending != key.blending ||
       decide (8 ≤ s.draw_cache.matrix_data.length) then
      let f := FlushTextureQuadCache s
      ({ f.1 with draw_cache :=
          { f.1.draw_cache with
              program_id := key.program_id,
              resource_id := key.resource_id,
              use_premultiplied_alpha := key.premultiplied_alpha,
              needs_blending := key.blending,
              uv_xform_location := texTransformLoc,
              vertex_opacity_location := vertexOpacityLoc,
              matrix_location := matrixLoc,
              sampler_location := samplerLoc } }, f.2)
    else (s, [])
  let s1 := step.1
  let uv : Float4 := ⟨quad.uv_top_left.px, quad.uv_top_left.py,
                      quad.uv_bottom_right.px - quad.uv_top_left.px,
                      quad.uv_bottom_right.py - quad.uv_top_left.py⟩
  let op := quad.q.opacity
  let m := frame.projection_matrix.mul
      (QuadRectTransform quad.q.transform (RectQ.ofRectI quad.q.rect))
  ({ s1 with draw_cache :=
      { s1.draw_cache with
          uv_xform_data := s1.draw_cache.uv_xform_data ++ [uv],
          vertex_opacity_data := s1.draw_cache.vertex_opacity_data ++
            [quad.vo0 * op, quad.vo1 * op, quad.vo2 * op, quad.vo3 * op],
          matrix_data := s1.draw_cache.matrix_data ++ [m] } }, step.2)

/-- Enqueue a list of texture quads in order, concatenating the traces. -/
def enqueueAll (frame : DrawingFrame) (s : RState) :
    List TextureQuad → RState × List GLCmd
  | [] => (s, [])
  | q :: rest =>
    let p := EnqueueTextureQuad frame s q
    let r := enqueueAll frame p.1 rest
    (r.1, p.2 ++ r.2)

/-- Program ids are never 0 (0 marks the empty batching cache). -/
theorem progId_ne_zero (k : ProgramKind) (p : TexCoordPrecision) :
    progId k p ≠ 0 := by
  unfold progId; omega

/-- The program id of a batch key is never 0. -/
theorem batchKey_program_ne_zero (t : ℤ) (q : TextureQuad) :
    (batchKey t q).program_id ≠ 0 := by
  unfold batchKey
  exact progId_ne_zero _ _

/-- The cache currently holds a batch with the given key. -/
def cacheKeyedAs (c : DrawCache) (k : BatchKey) : Prop :=
  c.program_id = k.program_id ∧ c.resource_id = k.resource_id ∧
  c.use_premultiplied_alpha = k.premultiplied_alpha ∧
  c.needs_blending = k.blending

instance (c : DrawCache) (k : BatchKey) : Decidable (cacheKeyedAs c k) := by
  unfold cacheKeyedAs; infer_instance

/-- Flushing an empty cache is a no-op: same state, no commands. -/
theorem flush_empty_cache (s : RState) (h : s.draw_cache.program_id = 0) :
    FlushTextureQuadCache s = (s, []) := by
  unfold FlushTextureQuadCache
  simp [h]

/-- Flushing a nonempty cache issues exactly one indexed draw call of
6 * N indices, N the number of batched quads, and leaves the cache
empty. -/
theorem flush_nonempty_cache (s : RState) (h : s.draw_cache.program_id ≠ 0) :
    drawCalls (FlushTextureQuadCache s).2 =
      [GLCmd.drawElements GLTriangles (6 * s.draw_cache.matrix_data.length)] ∧
    (FlushTextureQuadCache s).1.draw_cache.IsEmpty := by
  unfold FlushTextureQuadCache
  rw [if_neg (by simpa using h)]
  constructor
  · simp only [SetBlendEnabled, SetUseProgram, drawCalls]
    split_ifs <;> simp [GLCmd.isDrawCall]
  · unfold DrawCache.IsEmpty
    simp

/-- The flush condition of EnqueueTextureQuad is true whenever the cache
key differs from the key of the incoming quad. -/
theorem enqueue_cond_of_key_ne (c : DrawCache) (k k2 : BatchKey)
    (hk : cacheKeyedAs c k) (hne : k ≠ k2) :
    (c.program_id != k2.program_id || c.resource_id != k2.resource_id ||
     c.use_premultiplied_alpha != k2.premultiplied_alpha ||
     c.needs_blending != k2.blending ||
     decide (8 ≤ c.matrix_data.length)) = true := by
  obtain ⟨h0, h1, h2, h3⟩ := hk
  by_contra hfalse
  simp only [Bool.or_eq_true, bne_iff_ne, ne_eq, decide_eq_true_eq] at hfalse
  push_neg at hfalse
  obtain ⟨⟨⟨⟨e0, e1⟩, e2⟩, e3⟩, _⟩ := hfalse
  apply hne
  cases k; cases k2
  simp only [BatchKey.mk.injEq]
  refine ⟨?_, ?_, ?_, ?_⟩ <;> simp_all

/-- Enqueuing into an empty cache issues no commands and starts a batch
of one quad keyed by the incoming quad. -/
theorem enqueue_into_empty_cache (frame : DrawingFrame) (s : RState)
    (q : TextureQuad) (h : s.draw_cache.IsEmpty) :
    (EnqueueTextureQuad frame s q).2 = [] ∧
    cacheKeyedAs (EnqueueTextureQuad frame s q).1.draw_cache
      (batchKey s.highp_threshold_min q) ∧
    (EnqueueTextureQuad frame s q).1.draw_cache.matrix_data.length = 1 ∧
    (EnqueueTextureQuad frame s q).1.highp_threshold_min =
      s.highp_threshold_min := by
  obtain ⟨h0, h1, h2, h3⟩ := h
  have hcond : (s.draw_cache.program_id !=
      (batchKey s.highp_threshold_min q).program_id) = true := by
    rw [bne_iff_ne, h0]
    exact Ne.symm (batchKey_program_ne_zero _ _)
  simp only [EnqueueTextureQuad]
  rw [hcond, flush_empty_cache s h0]
  simp [cacheKeyedAs, h3]

/-- Enqueuing a quad whose key matches a below-capacity batch issues no
commands and grows the batch by one. -/
theorem enqueue_compatible (frame : DrawingFrame) (s : RState)
    (q : TextureQuad)
    (hk : cacheKeyedAs s.draw_cache (batchKey s.highp_threshold_min q))
    (hlen : s.draw_cache.matrix_data.length < 8) :
    (EnqueueTextureQuad frame s q).2 = [] ∧
    cacheKeyedAs (EnqueueTextureQuad frame s q).1.draw_cache
      (batchKey s.highp_threshold_min q) ∧
    (EnqueueTextureQuad frame s q).1.draw_cache.matrix_data.length =
      s.draw_cache.matrix_data.length + 1 ∧
    (EnqueueTextureQuad frame s q).1.highp_threshold_min =
      s.highp_threshold_min := by
  obtain ⟨h0, h1, h2, h3⟩ := hk
  have hcond : (s.draw_cache.program_id !=
      (batchKey s.highp_threshold_min q).program_id ||
      s.draw_cache.resource_id != (batchKey s.highp_threshold_min q).resource_id ||
      s.draw_cache.use_premultiplied_alpha !=
        (batchKey s.highp_threshold_min q).premultiplied_alpha ||
      s.draw_cache.needs_blending != (batchKey s.highp_threshold_min q).blending ||
      decide (8 ≤ s.draw_cache.matrix_data.length)) = false := by
    simp [h0, h1, h2, h3, Nat.not_le.mpr hlen]
  simp only [EnqueueTextureQuad]
  rw [hcond]
  simp [cacheKeyedAs, h0, h1, h2, h3]

/-- Enqueuing a quad whose key differs from the in-flight batch flushes
first: the trace is exactly the flush trace and a fresh batch of one
quad keyed by the incoming quad is started. -/
theorem enqueue_incompatible (frame : DrawingFrame) (s : RState)
    (q : TextureQuad) (k : BatchKey) (hk : cacheKeyedAs s.draw_cache k)
    (hpn : s.draw_cache.program_id ≠ 0)
    (hne : k ≠ batchKey s.highp_threshold_min q) :
    (EnqueueTextureQuad frame s q).2 = (FlushTextureQuadCache s).2 ∧
    cacheKeyedAs (EnqueueTextureQuad frame s q).1.draw_cache
      (batchKey s.highp_threshold_min q) ∧
    (EnqueueTextureQuad frame s q).1.draw_cache.matrix_data.length = 1 ∧
    (EnqueueTextureQuad frame s q).1.highp_threshold_min =
      s.highp_threshold_min := by
  have hcond := enqueue_cond_of_key_ne s.draw_cache k
    (batchKey s.highp_threshold_min q) hk hne
  simp only [EnqueueTextureQuad]
  rw [hcond]
  have hflush : (FlushTextureQuadCache s).1.draw_cache.uv_xform_data = [] ∧
      (FlushTextureQuadCache s).1.draw_cache.vertex_opacity_data = [] ∧
      (FlushTextureQuadCache s).1.draw_cache.matrix_data = [] ∧
      (FlushTextureQuadCache s).1.highp_threshold_min =
        s.highp_threshold_min := by
    unfold FlushTextureQuadCache
    rw [if_neg (by simpa using hpn)]
    simp only [SetBlendEnabled, SetUseProgram]
    split_ifs <;> simp
  obtain ⟨f1, f2, f3, f4⟩ := hflush
  simp [cacheKeyedAs, f1, f2, f3, f4]

/-- Enqueuing the concatenation of two quad lists composes the state
passes and concatenates the traces. -/
theorem enqueueAll_append (frame : DrawingFrame) (l1 l2 : List TextureQuad)
    (s : RState) :
    enqueueAll frame s (l1 ++ l2) =
      ((enqueueAll frame (enqueueAll frame s l1).1 l2).1,
       (enqueueAll frame s l1).2 ++
         (enqueueAll frame (enqueueAll frame s l1).1 l2).2) := by
  induction l1 generalizing s with
  | nil => simp [enqueueAll]
  | cons q rest ih =>
    simp only [List.cons_append, enqueueAll]
    simp [ih, List.append_assoc]

/-- Enqueuing a run of quads all sharing the key of a below-capacity
batch issues no commands and grows the batch by the run length. -/
theorem enqueueAll_compatible (frame : DrawingFrame) (qs : List TextureQuad) :
    ∀ (s : RState) (k : BatchKey), cacheKeyedAs s.draw_cache k →
    (∀ q ∈ qs, batchKey s.highp_threshold_min q = k) →
    s.draw_cache.matrix_data.length + qs.length ≤ 8 →
    (enqueueAll frame s qs).2 = [] ∧
    cacheKeyedAs (enqueueAll frame s qs).1.draw_cache k ∧
    (enqueueAll frame s qs).1.draw_cache.matrix_data.length =
      s.draw_cache.matrix_data.length + qs.length ∧
    (enqueueAll frame s qs).1.highp_threshold_min = s.highp_threshold_min := by
  induction qs with
  | nil =>
    intro s k hk _ _
    simpa [enqueueAll] using hk
  | cons q rest ih =>
    intro s k hk hall hlen
    have hq : batchKey s.highp_threshold_min q = k := hall q (by simp)
    have hlt : s.draw_cache.matrix_data.length < 8 := by
      simp only [List.length_cons] at hlen; omega
    have h1 := enqueue_compatible frame s q (hq ▸ hk) hlt
    obtain ⟨e1, e2, e3, e4⟩ := h1
    have hrest := ih (EnqueueTextureQuad frame s q).1 k (hq ▸ e2)
      (by intro r hr; rw [e4]; exact hall r (by simp [hr]))
      (by rw [e3]; simp only [List.length_cons] at hlen; omega)
    obtain ⟨r1, r2, r3, r4⟩ := hrest
    refine ⟨?_, ?_, ?_, ?_⟩
    · simp [enqueueAll, e1, r1]
    · simpa [enqueueAll] using r2
    · simp only [enqueueAll]
      rw [r3, e3]
      simp only [List.length_cons]
      omega
    · simpa [enqueueAll, r4] using e4

instance : Inhabited Mat4 := ⟨Mat4.id⟩

instance : Inhabited RectI := ⟨⟨0, 0, 0, 0⟩⟩

instance : Inhabited PointQ := ⟨⟨0, 0⟩⟩

instance : Inhabited SharedQuadData :=
  ⟨⟨default, default, 0, 0, default, 0, false, false, false, false, false⟩⟩

instance : Inhabited TextureQuad :=
  ⟨⟨default, 0, false, false, default, default, 0, 0, 0, 0⟩⟩

/-- Flushing a nonempty cache issues at least one command. -/
theorem flush_nonempty_cache_ne_nil (s : RState)
    (h : s.draw_cache.program_id ≠ 0) :
    (FlushTextureQuadCache s).2 ≠ [] := by
  intro hnil
  have := (flush_nonempty_cache s h).1
  rw [drawCalls, hnil] at this
  simp at this

/-- C1: enqueuing N (1 ≤ N ≤ 8) mutually compatible texture quads into
the empty batching cache followed by FlushTextureQuadCache issues
exactly one indexed draw call of 6 * N indices and leaves the cache
empty (program id 0, all per-instance arrays empty); additionally
enqueuing one incompatible quad before the flush forces exactly two
draw calls (6 * N indices then 6), again leaving the cache empty; and a
flush of an empty cache issues no command at all. -/
theorem texture_batching_flush_spec (frame : DrawingFrame) (s : RState)
    (qs : List TextureQuad) (q2 : TextureQuad) :
    (s.draw_cache.IsEmpty → 1 ≤ qs.length → qs.length ≤ 8 →
      (∀ a ∈ qs, ∀ b ∈ qs, BatchCompatible s.highp_threshold_min a b) →
      drawCalls ((enqueueAll frame s qs).2 ++
          (FlushTextureQuadCache (enqueueAll frame s qs).1).2) =
        [GLCmd.drawElements GLTriangles (6 * qs.length)] ∧
      (FlushTextureQuadCache
        (enqueueAll frame s qs).1).1.draw_cache.IsEmpty) ∧
    (s.draw_cache.IsEmpty → 1 ≤ qs.length → qs.length ≤ 8 →
      (∀ a ∈ qs, ∀ b ∈ qs, BatchCompatible s.highp_threshold_min a b) →
      (∀ a ∈ qs, ¬ BatchCompatible s.highp_threshold_min a q2) →
      drawCalls ((enqueueAll frame s (qs ++ [q2])).2 ++
          (FlushTextureQuadCache (enqueueAll frame s (qs ++ [q2])).1).2) =
        [GLCmd.drawElements GLTriangles (6 * qs.length),
         GLCmd.drawElements GLTriangles 6] ∧
      (FlushTextureQuadCache
        (enqueueAll frame s (qs ++ [q2])).1).1.draw_cache.IsEmpty) ∧
    (s.draw_cache.IsEmpty → FlushTextureQuadCache s = (s, [])) := by
  have hbatch : ∀ (hE : s.draw_cache.IsEmpty), 1 ≤ qs.length →
      qs.length ≤ 8 →
      (∀ a ∈ qs, ∀ b ∈ qs, BatchCompatible s.highp_threshold_min a b) →
      (enqueueAll frame s qs).2 = [] ∧
      (qs = [] ∨ cacheKeyedAs (enqueueAll frame s qs).1.draw_cache
        (batchKey s.highp_threshold_min qs.headI)) ∧
      (enqueueAll frame s qs).1.draw_cache.matrix_data.length = qs.length ∧
      (enqueueAll frame s qs).1.highp_threshold_min =
        s.highp_threshold_min := by
    intro hE hlen1 hlen8 hcompat
    match qs, hlen1 with
    | q0 :: rest, _ =>
      obtain ⟨e1, e2, e3, e4⟩ := enqueue_into_empty_cache frame s q0 hE
      have hall : ∀ r ∈ rest,
          batchKey (EnqueueTextureQuad frame s q0).1.highp_threshold_min r =
            batchKey s.highp_threshold_min q0 := by
        intro r hr
        rw [e4]
        exact (hcompat r (by simp [hr]) q0 (by simp))
      obtain ⟨r1, r2, r3, r4⟩ := enqueueAll_compatible frame rest
        (EnqueueTextureQuad frame s q0).1 (batchKey s.highp_threshold_min q0)
        e2 hall
        (by rw [e3]; simp only [List.length_cons] at hlen8; omega)
      refine ⟨?_, ?_, ?_, ?_⟩
      · simp [enqueueAll, e1, r1]
      · right
        simpa [enqueueAll, List.headI] using r2
      · simp only [enqueueAll]
        rw [r3, e3]
        simp only [List.length_cons]
        omega
      · simpa [enqueueAll, r4] using e4
  refine ⟨?_, ?_, fun hE => flush_empty_cache s hE.1⟩
  · intro hE hlen1 hlen8 hcompat
    obtain ⟨b1, b2, b3, b4⟩ := hbatch hE hlen1 hlen8 hcompat
    rcases b2 with hnil | hkeyed
    · subst hnil; simp at hlen1
    · have hpn : (enqueueAll frame s qs).1.draw_cache.program_id ≠ 0 := by
        rw [hkeyed.1]
        exact batchKey_program_ne_zero _ _
      obtain ⟨f1, f2⟩ := flush_nonempty_cache (enqueueAll frame s qs).1 hpn
      rw [b3] at f1
      refine ⟨?_, f2⟩
      rw [b1]
      simpa [drawCalls] using f1
  · intro hE hlen1 hlen8 hcompat hincompat
    obtain ⟨b1, b2, b3, b4⟩ := hbatch hE hlen1 hlen8 hcompat
    rcases b2 with hnil | hkeyed
    · subst hnil; simp at hlen1
    · have hpn : (enqueueAll frame s qs).1.draw_cache.program_id ≠ 0 := by
        rw [hkeyed.1]
        exact batchKey_program_ne_zero _ _
      have hheadmem : qs.headI ∈ qs := by
        match qs, hlen1 with
        | q0 :: rest, _ => simp [List.headI]
      have hne : batchKey s.highp_threshold_min qs.headI ≠
          batchKey (enqueueAll frame s qs).1.highp_threshold_min q2 := by
        rw [b4]
        exact hincompat qs.headI hheadmem
      obtain ⟨i1, i2, i3, i4⟩ := enqueue_incompatible frame
        (enqueueAll frame s qs).1 q2 (batchKey s.highp_threshold_min qs.headI)
        hkeyed hpn hne
      obtain ⟨ff1, _⟩ := flush_nonempty_cache (enqueueAll frame s qs).1 hpn
      have hpn2 : (EnqueueTextureQuad frame (enqueueAll frame s qs).1
          q2).1.draw_cache.program_id ≠ 0 := by
        rw [i2.1]
        exact batchKey_program_ne_zero _ _
      obtain ⟨g1, g2⟩ := flush_nonempty_cache
        (EnqueueTextureQuad frame (enqueueAll frame s qs).1 q2).1 hpn2
      rw [i3] at g1
      have happ := enqueueAll_append frame qs [q2] s
      have htail : enqueueAll frame (enqueueAll frame s qs).1 [q2] =
          ((EnqueueTextureQuad frame (enqueueAll frame s qs).1 q2).1,
           (EnqueueTextureQuad frame (enqueueAll frame s qs).1 q2).2) := by
        simp [enqueueAll]
      rw [happ, htail]
      refine ⟨?_, g2⟩
      simp only [drawCalls, List.filter_append]
      rw [b1, i1]
      have hff1 : List.filter GLCmd.isDrawCall
          (FlushTextureQuadCache (enqueueAll frame s qs).1).2 =
          [GLCmd.drawElements GLTriangles (6 * qs.length)] := by
        rw [← b3]; exact ff1
      have hg1 : List.filter GLCmd.isDrawCall
          (FlushTextureQuadCache (EnqueueTextureQuad frame
            (enqueueAll frame s qs).1 q2).1).2 =
          [GLCmd.drawElements GLTriangles 6] := by
        simpa using g1
      simp [hff1, hg1]

/-- A sample drawing frame: identity projection and window matrices over
a 100 x 100 output rect with an opaque background. -/
def frame0 : DrawingFrame :=
  ⟨Mat4.id, Mat4.id, false, ⟨0, 0, 100, 100⟩, true⟩

/-- A sample renderer state: empty batching cache, blending off, no
bound program, scissor off, no cached render-pass textures, precision
threshold 100. -/
def state0 : RState :=
  ⟨DrawCache.empty, false, 0, false, ⟨0, 0, 0, 0⟩, [], 100⟩

/-- Shared fields of the sample quads: a 10 x 10 rect at the origin,
identity transform, full opacity, no blending, all edges anti-aliasable. -/
def sharedq0 : SharedQuadData :=
  ⟨⟨0, 0, 10, 10⟩, ⟨0, 0, 10, 10⟩, 10, 10, Mat4.id, 1, false,
   true, true, true, true⟩

/-- A sample texture quad on resource 7. -/
def texq1 : TextureQuad :=
  ⟨sharedq0, 7, true, false, ⟨0, 0⟩, ⟨1, 1⟩, 1, 1, 1, 1⟩

/-- A second texture quad batch-compatible with texq1 (same resource,
premultiplied-alpha flag, program selection and blending). -/
def texq2 : TextureQuad :=
  ⟨sharedq0, 7, true, false, ⟨0, 0⟩, ⟨1, (1 : ℚ) / 2⟩, 1, 1, 1, (1 : ℚ) / 2⟩

/-- A texture quad incompatible with texq1: different texture resource. -/
def texq3 : TextureQuad :=
  ⟨sharedq0, 9, true, false, ⟨0, 0⟩, ⟨1, 1⟩, 1, 1, 1, 1⟩

theorem texture_batching_flush_spec_witness :
    (state0.draw_cache.IsEmpty ∧
     (∀ a ∈ [texq1, texq2], ∀ b ∈ [texq1, texq2],
        BatchCompatible state0.highp_threshold_min a b) ∧
     (∀ a ∈ [texq1, texq2],
        ¬ BatchCompatible state0.highp_threshold_min a texq3)) ∧
    drawCalls ((enqueueAll frame0 state0 [texq1, texq2]).2 ++
        (FlushTextureQuadCache (enqueueAll frame0 state0 [texq1, texq2]).1).2) =
      [GLCmd.drawElements GLTriangles 12] ∧
    drawCalls ((enqueueAll frame0 state0 ([texq1, texq2] ++ [texq3])).2 ++
        (FlushTextureQuadCache
          (enqueueAll frame0 state0 ([texq1, texq2] ++ [texq3])).1).2) =
      [GLCmd.drawElements GLTriangles 12, GLCmd.drawElements GLTriangles 6] ∧
    (FlushTextureQuadCache
      (enqueueAll frame0 state0
        ([texq1, texq2] ++ [texq3])).1).1.draw_cache.IsEmpty := by
  have h := texture_batching_flush_spec frame0 state0 [texq1, texq2] texq3
  have h1 := h.1 (by decide) (by decide) (by decide) (by decide)
  have h2 := h.2.1 (by decide) (by decide) (by decide) (by decide) (by decide)
  exact ⟨⟨by decide, by decide, by decide⟩, h1.1, h2.1, h2.2⟩

/-- C6: batch compatibility is the agreement of the full batch key
(selected program variant, texture resource id, premultiplied-alpha
flag, blend requirement); it is an equivalence relation, and an
enqueued texture quad joins the in-flight batch without any intervening
flush commands exactly when it is batch-compatible with the quad that
keyed the batch and the batch is below its capacity of 8. -/
theorem batch_compatibility_spec (threshold : ℤ) (frame : DrawingFrame)
    (s : RState) (q1 q2 : TextureQuad) :
    Equivalence (BatchCompatible threshold) ∧
    (cacheKeyedAs s.draw_cache (batchKey s.highp_threshold_min q1) →
     s.draw_cache.program_id ≠ 0 →
     ((EnqueueTextureQuad frame s q2).2 = [] ↔
      (BatchCompatible s.highp_threshold_min q1 q2 ∧
       s.draw_cache.matrix_data.length < 8))) := by
  refine ⟨⟨fun a => rfl, fun h => h.symm, fun h h2 => h.trans h2⟩, ?_⟩
  intro hk hpn
  constructor
  · intro hnil
    by_cases hcond : (s.draw_cache.program_id !=
        (batchKey s.highp_threshold_min q2).program_id ||
        s.draw_cache.resource_id !=
          (batchKey s.highp_threshold_min q2).resource_id ||
        s.draw_cache.use_premultiplied_alpha !=
          (batchKey s.highp_threshold_min q2).premultiplied_alpha ||
        s.draw_cache.needs_blending !=
          (batchKey s.highp_threshold_min q2).blending ||
        decide (8 ≤ s.draw_cache.matrix_data.length)) = true
    · exfalso
      apply flush_nonempty_cache_ne_nil s hpn
      have : (EnqueueTextureQuad frame s q2).2 =
          (FlushTextureQuadCache s).2 := by
        simp only [EnqueueTextureQuad]
        rw [hcond]
        simp
      rw [← this]
      exact hnil
    · simp only [Bool.or_eq_true, bne_iff_ne, ne_eq, decide_eq_true_eq,
        not_or, not_not, Nat.not_le] at hcond
      obtain ⟨⟨⟨⟨c0, c1⟩, c2⟩, c3⟩, c4⟩ := hcond
      obtain ⟨k0, k1, k2, k3⟩ := hk
      refine ⟨?_, c4⟩
      have e0 := k0.symm.trans c0
      have e1 := k1.symm.trans c1
      have e2 := k2.symm.trans c2
      have e3 := k3.symm.trans c3
      unfold BatchCompatible
      calc batchKey s.highp_threshold_min q1
          = ⟨(batchKey s.highp_threshold_min q1).program_id,
             (batchKey s.highp_threshold_min q1).resource_id,
             (batchKey s.highp_threshold_min q1).premultiplied_alpha,
             (batchKey s.highp_threshold_min q1).blending⟩ := rfl
        _ = ⟨(batchKey s.highp_threshold_min q2).program_id,
             (batchKey s.highp_threshold_min q2).resource_id,
             (batchKey s.highp_threshold_min q2).premultiplied_alpha,
             (batchKey s.highp_threshold_min q2).blending⟩ := by
              rw [e0, e1, e2, e3]
        _ = batchKey s.highp_threshold_min q2 := rfl
  · intro ⟨hcompat, hlen⟩
    have hk2 : cacheKeyedAs s.draw_cache
        (batchKey s.highp_threshold_min q2) := by
      unfold BatchCompatible at hcompat
      rw [← hcompat]
      exact hk
    exact (enqueue_compatible frame s q2 hk2 hlen).1

/-- The state after enqueuing texq1 into the sample renderer state: a
one-quad in-flight batch keyed by texq1. -/
def state1 : RState := (EnqueueTextureQuad frame0 state0 texq1).1

theorem batch_compatibility_spec_witness :
    (cacheKeyedAs state1.draw_cache
       (batchKey state1.highp_threshold_min texq1) ∧
     state1.draw_cache.program_id ≠ 0 ∧
     BatchCompatible state1.highp_threshold_min texq1 texq2 ∧
     state1.draw_cache.matrix_data.length < 8) ∧
    (EnqueueTextureQuad frame0 state1 texq2).2 = [] := by
  have h := batch_compatibility_spec state1.highp_threshold_min frame0
    state1 texq1 texq2
  refine ⟨⟨by decide, by decide, by decide, by decide⟩, ?_⟩
  exact (h.2 (by decide) (by decide)).mpr ⟨by decide, by decide⟩

/-- GL_LINEAR. -/
def GLLinear : ℕ := 9729

/-- GL_NEAREST. -/
def GLNearest : ℕ := 9728

/-- Whether a rational is an integer (exact denominator check). -/
def ratIsInteger (q : ℚ) : Bool := q.den == 1

/-- Modelled from the spec: gfx::Transform::IsIdentityOrIntegerTranslation
(ui/gfx, not under src/) holds for the identity matrix up to an integer
translation component. -/
def Mat4.IsIdentityOrIntegerTranslation (m : Mat4) : Bool :=
  m.m00 == 1 && m.m01 == 0 && m.m02 == 0 &&
  m.m10 == 0 && m.m11 == 1 && m.m12 == 0 &&
  m.m20 == 0 && m.m21 == 0 && m.m22 == 1 &&
  m.m30 == 0 && m.m31 == 0 && m.m32 == 0 && m.m33 == 1 &&
  ratIsInteger m.m03 && ratIsInteger m.m13 && ratIsInteger m.m23

/-- Modelled from the spec: gfx::QuadF::IsCounterClockwise decides the
winding of the quad from the cross product of its first three corners. -/
def QuadF.IsCounterClockwise (q : QuadF) : Bool :=
  decide ((q.p2.px - q.p1.px) * (q.p3.py - q.p2.py) -
          (q.p2.py - q.p1.py) * (q.p3.px - q.p2.px) < 0)

/-- Modelled from the spec: a LayerQuad::Edge (cc/resources/layer_quad,
not under src/) is a boundary line equation ex * x + ey * y + ez = 0.
The source normalizes the equation by the irrational tangent length;
the model keeps the unnormalized equation — no claim inspects the
numeric edge payload, only which edges are substituted. -/
structure EdgeEq where
  ex : ℚ
  ey : ℚ
  ez : ℚ
deriving DecidableEq, Repr

/-- The edge through two points, oriented by the tangent. -/
def EdgeEq.ofPoints (p q : PointQ) : EdgeEq :=
  ⟨p.py - q.py, q.px - p.px, p.px * q.py - q.px * p.py⟩

/-- Edge scaled by a sign or factor (LayerQuad::Edge::scale). -/
def EdgeEq.scale (e : EdgeEq) (s : ℚ) : EdgeEq :=
  ⟨e.ex * s, e.ey * s, e.ez * s⟩

/-- Modelled from the spec: moving the edge outward by the
anti-aliasing distance; the source subtracts the distance from the
normalized constant term, the model subtracts it unnormalized. -/
def EdgeEq.inflate (e : EdgeEq) (d : ℚ) : EdgeEq :=
  ⟨e.ex, e.ey, e.ez - d⟩

/-- Intersection of two edge lines (LayerQuad::Edge::Intersect), total
via rational division. -/
def EdgeEq.intersect (a b : EdgeEq) : PointQ :=
  let d := a.ex * b.ey - a.ey * b.ex
  ⟨(a.ey * b.ez - a.ez * b.ey) / d, (a.ez * b.ex - a.ex * b.ez) / d⟩

/-- Modelled from the spec: LayerQuad (cc/resources/layer_quad, not
under src/): a quad held as its four boundary edge equations. -/
structure LayerQuadM where
  left : EdgeEq
  top : EdgeEq
  right : EdgeEq
  bottom : EdgeEq
deriving DecidableEq, Repr

/-- LayerQuad built from a quad: edges left (p4 p1), top (p1 p2),
right (p2 p3), bottom (p3 p4). -/
def LayerQuadM.ofQuad (q : QuadF) : LayerQuadM :=
  ⟨EdgeEq.ofPoints q.p4 q.p1, EdgeEq.ofPoints q.p1 q.p2,
   EdgeEq.ofPoints q.p2 q.p3, EdgeEq.ofPoints q.p3 q.p4⟩

/-- The anti-aliasing inflate distance (kAntiAliasingInflateDistance). -/
def kAntiAliasingInflateDistance : ℚ := 1 / 2

/-- LayerQuad::InflateAntiAliasingDistance: move all four edges outward. -/
def LayerQuadM.inflateAA (l : LayerQuadM) : LayerQuadM :=
  ⟨l.left.inflate kAntiAliasingInflateDistance,
   l.top.inflate kAntiAliasingInflateDistance,
   l.right.inflate kAntiAliasingInflateDistance,
   l.bottom.inflate kAntiAliasingInflateDistance⟩

/-- LayerQuad::ToQuadF: corner points as edge intersections. -/
def LayerQuadM.toQuadF (l : LayerQuadM) : QuadF :=
  ⟨l.left.intersect l.top, l.top.intersect l.right,
   l.right.intersect l.bottom, l.bottom.intersect l.left⟩

/-- Matrix inverse by the adjugate over the determinant (total: a
singular matrix yields junk entries, used only behind invertibility
checks, matching the GetInverse contract). -/
def Mat4.inverse (a : Mat4) : Mat4 :=
  let s0 := a.m00 * a.m11 - a.m01 * a.m10
  let s1 := a.m00 * a.m12 - a.m02 * a.m10
  let s2 := a.m00 * a.m13 - a.m03 * a.m10
  let s3 := a.m01 * a.m12 - a.m02 * a.m11
  let s4 := a.m01 * a.m13 - a.m03 * a.m11
  let s5 := a.m02 * a.m13 - a.m03 * a.m12
  let c5 := a.m22 * a.m33 - a.m23 * a.m32
  let c4 := a.m21 * a.m33 - a.m23 * a.m31
  let c3 := a.m21 * a.m32 - a.m22 * a.m31
  let c2 := a.m20 * a.m33 - a.m23 * a.m30
  let c1 := a.m20 * a.m32 - a.m22 * a.m30
  let c0 := a.m20 * a.m31 - a.m21 * a.m30
  let det := s0 * c5 - s1 * c4 + s2 * c3 + s3 * c2 - s4 * c1 + s5 * c0
  ⟨(a.m11 * c5 - a.m12 * c4 + a.m13 * c3) / det,
   (-a.m01 * c5 + a.m02 * c4 - a.m03 * c3) / det,
   (a.m31 * s5 - a.m32 * s4 + a.m33 * s3) / det,
   (-a.m21 * s5 + a.m22 * s4 - a.m23 * s3) / det,
   (-a.m10 * c5 + a.m12 * c2 - a.m13 * c1) / det,
   (a.m00 * c5 - a.m02 * c2 + a.m03 * c1) / det,
   (-a.m30 * s5 + a.m32 * s2 - a.m33 * s1) / det,
   (a.m20 * s5 - a.m22 * s2 + a.m23 * s1) / det,
   (a.m10 * c4 - a.m11 * c2 + a.m13 * c0) / det,
   (-a.m00 * c4 + a.m01 * c2 - a.m03 * c0) / det,
   (a.m30 * s4 - a.m31 * s2 + a.m33 * s0) / det,
   (-a.m20 * s4 + a.m21 * s2 - a.m23 * s0) / det,
   (-a.m10 * c3 + a.m11 * c1 - a.m12 * c0) / det,
   (a.m00 * c3 - a.m01 * c1 + a.m02 * c0) / det,
   (-a.m30 * s3 + a.m31 * s1 - a.m32 * s0) / det,
   (a.m20 * s3 - a.m21 * s1 + a.m22 * s0) / det⟩

/-- GLRenderer::SetupQuadForAntialiasing: maps the visible rect to
device space; anti-aliasing is used only when the mapped quad is
unclipped, the quad has an anti-aliasable edge, and the mapped quad is
not an axis-aligned rectangle lying within the 1/1024 epsilon of an
integer rect.  When anti-aliasing is off the function returns none,
leaving the caller's local quad and edge array untouched; otherwise it
returns the local quad mapped back through the inverse transform
together with the inflated edge and bounding-box line equations. -/
def SetupQuadForAntialiasing (device_transform : Mat4)
    (q : SharedQuadData) : Option (QuadF × LayerQuadM × LayerQuadM) :=
  let tile_rect := q.visible_rect
  let mapped := device_transform.MapQuad (QuadF.ofRectI q.visible_rect)
  let device_layer_quad := mapped.1
  let clipped := mapped.2
  let is_axis_aligned_in_target := device_layer_quad.IsRectilinear
  let is_nearest_rect_within_epsilon := is_axis_aligned_in_target &&
      IsNearestRectWithinDistance device_layer_quad.BoundingBox
        kAntiAliasingEpsilon
  let use_aa := !clipped && !is_nearest_rect_within_epsilon && q.IsEdge
  if !use_aa then none
  else
    let device_layer_bounds :=
      (LayerQuadM.ofQuad (QuadF.ofRectQ device_layer_quad.BoundingBox)).inflateAA
    let device_layer_edges := (LayerQuadM.ofQuad device_layer_quad).inflateAA
    let bottom_right := (device_transform.MapPoint
      ⟨(tile_rect.right : ℚ), (tile_rect.bottom : ℚ)⟩).1
    let bottom_left := (device_transform.MapPoint
      ⟨(tile_rect.rx : ℚ), (tile_rect.bottom : ℚ)⟩).1
    let top_left := (device_transform.MapPoint
      ⟨(tile_rect.rx : ℚ), (tile_rect.ry : ℚ)⟩).1
    let top_right := (device_transform.MapPoint
      ⟨(tile_rect.right : ℚ), (tile_rect.ry : ℚ)⟩).1
    let bottom_edge0 := EdgeEq.ofPoints bottom_right bottom_left
    let left_edge0 := EdgeEq.ofPoints bottom_left top_left
    let top_edge0 := EdgeEq.ofPoints top_left top_right
    let right_edge0 := EdgeEq.ofPoints top_right bottom_right
    let top_edge := if q.topEdge && tile_rect.ry == q.rect.ry then
        device_layer_edges.top else top_edge0
    let left_edge := if q.leftEdge && tile_rect.rx == q.rect.rx then
        device_layer_edges.left else left_edge0
    let right_edge := if q.rightEdge && tile_rect.right == q.rect.right then
        device_layer_edges.right else right_edge0
    let bottom_edge := if q.bottomEdge && tile_rect.bottom == q.rect.bottom then
        device_layer_edges.bottom else bottom_edge0
    let sign : ℚ :=
      if (QuadF.ofRectI tile_rect).IsCounterClockwise then -1 else 1
    let device_quad := LayerQuadM.mk (left_edge.scale sign)
        (top_edge.scale sign) (right_edge.scale sign) (bottom_edge.scale sign)
    let inverse_device_transform := device_transform.inverse
    let local_quad :=
      (inverse_device_transform.MapQuad device_quad.toQuadF).1
    some (local_quad, device_layer_edges, device_layer_bounds)

/-- A solid-color quad (SolidColorDrawQuad): the shared fields plus an
ARGB color. -/
structure SolidColorQuad where
  q : SharedQuadData
  color : ℕ
deriving DecidableEq, Repr

/-- A tiled/content quad (ContentDrawQuadBase): texture resource, the
texture sub-rect corresponding to the geometry rect, the texture size
and the swizzle flag. -/
structure ContentQuad where
  q : SharedQuadData
  resource_id : ℕ
  tex_coord_rect : RectQ
  texture_size_w : ℤ
  texture_size_h : ℤ
  swizzle_contents : Bool
deriving DecidableEq, Repr

/-- gfx::RectF::Inset by four side amounts (left, top, right, bottom). -/
def RectQ.Inset (r : RectQ) (l t rr b : ℚ) : RectQ :=
  ⟨r.qx + l, r.qy + t, r.qw - l - rr, r.qh - t - b⟩

/-- Scale the four corners of a quad (gfx::QuadF::Scale). -/
def QuadF.scalePts (q : QuadF) (sx sy : ℚ) : QuadF :=
  ⟨⟨q.p1.px * sx, q.p1.py * sy⟩, ⟨q.p2.px * sx, q.p2.py * sy⟩,
   ⟨q.p3.px * sx, q.p3.py * sy⟩, ⟨q.p4.px * sx, q.p4.py * sy⟩⟩

/-- The flattened device transform of a quad under a frame:
window matrix * projection matrix * quad transform, flattened to 2D. -/
def deviceTransformOf (frame : DrawingFrame) (t : Mat4) : Mat4 :=
  ((frame.window_matrix.mul frame.projection_matrix).mul t).FlattenTo2d

/-- GLRenderer::DrawSolidColorQuad: set blending from the quad, skip the
quad silently when the flattened device transform is not invertible,
run the anti-aliasing setup, select the plain or AA solid-color
program, upload the premultiplied color, re-set blending to the quad
requirement OR use_aa, upload the normalized local quad, and draw. -/
def DrawSolidColorQuad (frame : DrawingFrame) (s : RState)
    (quad : SolidColorQuad) : RState × List GLCmd :=
  let p1 := SetBlendEnabled s quad.q.blending
  let tile_rect := quad.q.visible_rect
  let device_transform := deviceTransformOf frame quad.q.transform
  if !device_transform.IsInvertible then (p1.1, p1.2)
  else
    let aa := SetupQuadForAntialiasing device_transform quad.q
    let use_aa := aa.isSome
    let local_quad := match aa with
      | some r => r.1
      | none => QuadF.ofRectI tile_rect
    let prog := progId
      (if use_aa then ProgramKind.solidColorAA else ProgramKind.solidColor)
      TexCoordPrecision.medium
    let p2 := SetUseProgram p1.1 prog
    let color := quad.color
    let opacity := quad.q.opacity
    let alpha := (SkColorGetA color : ℚ) * (1 / 255) * opacity
    let colorCmd := GLCmd.uniform4f colorLoc
        ((SkColorGetR color : ℚ) * (1 / 255) * alpha)
        ((SkColorGetG color : ℚ) * (1 / 255) * alpha)
        ((SkColorGetB color : ℚ) * (1 / 255) * alpha)
        alpha
    let edgeCmds := if use_aa then [GLCmd.uniform3fv edgeLoc 8] else []
    let p3 := SetBlendEnabled p2.1 (quad.q.blending || use_aa)
    let normalized := local_quad.scalePts (1 / (tile_rect.rw : ℚ))
        (1 / (tile_rect.rh : ℚ))
    let quadCmds := SetShaderQuadF normalized pointLoc
    let centered_rect : RectQ := ⟨-(tile_rect.rw : ℚ) / 2,
        -(tile_rect.rh : ℚ) / 2, (tile_rect.rw : ℚ), (tile_rect.rh : ℚ)⟩
    let drawCmds := DrawQuadGeometry frame quad.q.transform centered_rect
        matrixLoc
    (p3.1, p1.2 ++ p2.2 ++ [colorCmd] ++ edgeCmds ++ p3.2 ++ quadCmds ++
      drawCmds)

/-- GLRenderer::DrawContentQuad: compute the half-texel clamped texture
coordinates, skip the quad silently when the flattened device transform
is not invertible, run the anti-aliasing setup, select among the eight
tile program variants by (use_aa, blending, swizzle), bind the sampler
with the chosen filter, upload the tex transforms (split across vertex
and fragment stages under AA, folded into the vertex stage otherwise),
set blending to the quad requirement OR use_aa, upload opacity and the
normalized local quad, and draw. -/
def DrawContentQuad (frame : DrawingFrame) (s : RState)
    (quad : ContentQuad) : RState × List GLCmd :=
  let tile_rect := quad.q.visible_rect
  let tex_to_geom_scale_x := (quad.q.rect.rw : ℚ) / quad.tex_coord_rect.qw
  let tex_to_geom_scale_y := (quad.q.rect.rh : ℚ) / quad.tex_coord_rect.qh
  let top_left_diff_x := ((tile_rect.rx - quad.q.rect.rx : ℤ) : ℚ)
  let top_left_diff_y := ((tile_rect.ry - quad.q.rect.ry : ℤ) : ℚ)
  let bottom_right_diff_x := ((tile_rect.right - quad.q.rect.right : ℤ) : ℚ)
  let bottom_right_diff_y := ((tile_rect.bottom - quad.q.rect.bottom : ℤ) : ℚ)
  let tex_coord_rect := quad.tex_coord_rect.Inset
      (top_left_diff_x / tex_to_geom_scale_x)
      (top_left_diff_y / tex_to_geom_scale_y)
      (-bottom_right_diff_x / tex_to_geom_scale_x)
      (-bottom_right_diff_y / tex_to_geom_scale_y)
  let clamp_geom_rect0 := RectQ.ofRectI tile_rect
  let clamp_tex_rect0 := tex_coord_rect
  let tex_clamp_x := min (1 / 2)
      ((1 / 2) * clamp_tex_rect0.qw - kAntiAliasingEpsilon)
  let tex_clamp_y := min (1 / 2)
      ((1 / 2) * clamp_tex_rect0.qh - kAntiAliasingEpsilon)
  let geom_clamp_x := min (tex_clamp_x * tex_to_geom_scale_x)
      ((1 / 2) * clamp_geom_rect0.qw - kAntiAliasingEpsilon)
  let geom_clamp_y := min (tex_clamp_y * tex_to_geom_scale_y)
      ((1 / 2) * clamp_geom_rect0.qh - kAntiAliasingEpsilon)
  let clamp_geom_rect := clamp_geom_rect0.Inset geom_clamp_x geom_clamp_y
      geom_clamp_x geom_clamp_y
  let clamp_tex_rect := clamp_tex_rect0.Inset tex_clamp_x tex_clamp_y
      tex_clamp_x tex_clamp_y
  let vertex_tex_translate_x := -clamp_geom_rect.qx / clamp_geom_rect.qw
  let vertex_tex_translate_y := -clamp_geom_rect.qy / clamp_geom_rect.qh
  let vertex_tex_scale_x := (tile_rect.rw : ℚ) / clamp_geom_rect.qw
  let vertex_tex_scale_y := (tile_rect.rh : ℚ) / clamp_geom_rect.qh
  let precision := TexCoordPrecisionRequired s.highp_threshold_min
      quad.texture_size_w quad.texture_size_h
  let fragment_tex_translate_x := clamp_tex_rect.qx / (quad.texture_size_w : ℚ)
  let fragment_tex_translate_y := clamp_tex_rect.qy / (quad.texture_size_h : ℚ)
  let fragment_tex_scale_x := clamp_tex_rect.qw / (quad.texture_size_w : ℚ)
  let fragment_tex_scale_y := clamp_tex_rect.qh / (quad.texture_size_h : ℚ)
  let device_transform := deviceTransformOf frame quad.q.transform
  if !device_transform.IsInvertible then (s, [])
  else
    let aa := SetupQuadForAntialiasing device_transform quad.q
    let use_aa := aa.isSome
    let local_quad := match aa with
      | some r => r.1
      | none => QuadF.ofRectI tile_rect
    let prog :=
      if use_aa then
        progId (if quad.swizzle_contents then ProgramKind.tileSwizzleAA
                else ProgramKind.tileAA) precision
      else if quad.q.blending then
        progId (if quad.swizzle_contents then ProgramKind.tileSwizzle
                else ProgramKind.tile) precision
      else
        progId (if quad.swizzle_contents then ProgramKind.tileSwizzleOpaque
                else ProgramKind.tileOpaque) precision
    let p1 := SetUseProgram s prog
    let samplerCmds := [GLCmd.uniform1i samplerLoc 0]
    let scaled := !(tex_to_geom_scale_x == 1 && tex_to_geom_scale_y == 1)
    let filter := if use_aa || scaled ||
        !quad.q.transform.IsIdentityOrIntegerTranslation
      then GLLinear else GLNearest
    let samplerBind := [GLCmd.bindTexture GLTexture2D quad.resource_id,
                        GLCmd.texParameterFilter filter]
    let texCmds :=
      if use_aa then
        [GLCmd.uniform3fv edgeLoc 8,
         GLCmd.uniform4f vertexTexTransformLoc vertex_tex_translate_x
           vertex_tex_translate_y vertex_tex_scale_x vertex_tex_scale_y,
         GLCmd.uniform4f fragmentTexTransformLoc fragment_tex_translate_x
           fragment_tex_translate_y fragment_tex_scale_x fragment_tex_scale_y]
      else
        let vsx := vertex_tex_scale_x * fragment_tex_scale_x
        let vsy := vertex_tex_scale_y * fragment_tex_scale_y
        let vtx := vertex_tex_translate_x * fragment_tex_scale_x +
          fragment_tex_translate_x
        let vty := vertex_tex_translate_y * fragment_tex_scale_y +
          fragment_tex_translate_y
        [GLCmd.uniform4f vertexTexTransformLoc vtx vty vsx vsy]
    let p2 := SetBlendEnabled p1.1 (quad.q.blending || use_aa)
    let normalized := local_quad.scalePts (1 / (tile_rect.rw : ℚ))
        (1 / (tile_rect.rh : ℚ))
    let opCmds := SetShaderOpacity quad.q.opacity alphaLoc
    let quadCmds := SetShaderQuadF normalized pointLoc
    let centered_rect : RectQ := ⟨-(tile_rect.rw : ℚ) / 2,
        -(tile_rect.rh : ℚ) / 2, (tile_rect.rw : ℚ), (tile_rect.rh : ℚ)⟩
    let drawCmds := DrawQuadGeometry frame quad.q.transform centered_rect
        matrixLoc
    (p2.1, p1.2 ++ samplerCmds ++ samplerBind ++ texCmds ++ p2.2 ++ opCmds ++
      quadCmds ++ drawCmds)

/-- GLRenderer::DrawTileQuad forwards to DrawContentQuad with the tile
resource. -/
def DrawTileQuad (frame : DrawingFrame) (s : RState) (quad : ContentQuad) :
    RState × List GLCmd :=
  DrawContentQuad frame s quad

/-- Rounding half away from zero fixes integers. -/
theorem roundHalfAway_intCast (n : ℤ) : roundHalfAway (n : ℚ) = n := by
  unfold roundHalfAway
  split_ifs with h
  · rw [Int.floor_eq_iff]
    constructor
    · linarith
    · linarith
  · rw [Int.ceil_eq_iff]
    constructor
    · linarith
    · linarith

/-- A rational that is an integer lies strictly within the
anti-aliasing epsilon of its rounding. -/
theorem within_of_int (q : ℚ) (z : ℤ) (h : q = (z : ℚ)) :
    |(roundHalfAway q : ℚ) - q| < kAntiAliasingEpsilon := by
  subst h
  rw [roundHalfAway_intCast]
  simp [kAntiAliasingEpsilon]

/-- The identity transform maps a point to itself, unclipped. -/
theorem MapPoint_id (p : PointQ) : Mat4.id.MapPoint p = (p, false) := by
  unfold Mat4.MapPoint Mat4.homW Mat4.id
  simp

/-- The identity transform maps a quad to itself, unclipped. -/
theorem MapQuad_id (q : QuadF) : Mat4.id.MapQuad q = (q, false) := by
  unfold Mat4.MapQuad
  rw [MapPoint_id, MapPoint_id, MapPoint_id, MapPoint_id]
  rfl

/-- The quad of an axis-aligned rect is rectilinear. -/
theorem ofRectI_rectilinear (r : RectI) :
    (QuadF.ofRectI r).IsRectilinear = true := by
  unfold QuadF.IsRectilinear QuadF.ofRectI QuadF.ofRectQ RectQ.ofRectI
    RectQ.right RectQ.bottom
  simp

/-- The bounding box of the quad of an integer rect lies within the
anti-aliasing epsilon of an integer rect. -/
theorem ofRectI_bounding_within (r : RectI) :
    IsNearestRectWithinDistance (QuadF.ofRectI r).BoundingBox
      kAntiAliasingEpsilon = true := by
  unfold IsNearestRectWithinDistance QuadF.BoundingBox QuadF.ofRectI
    QuadF.ofRectQ RectQ.ofRectI RectQ.right RectQ.bottom
  simp only [Bool.and_eq_true, decide_eq_true_eq]
  refine ⟨⟨⟨?_, ?_⟩, ?_⟩, ?_⟩
  · exact within_of_int _ (min (min r.rx (r.rx + r.rw)) (min (r.rx + r.rw) r.rx))
      (by push_cast; ring_nf)
  · exact within_of_int _ (min (min r.ry r.ry) (min (r.ry + r.rh) (r.ry + r.rh)))
      (by push_cast; ring_nf)
  · exact within_of_int _ (max (max r.rx (r.rx + r.rw)) (max (r.rx + r.rw) r.rx))
      (by push_cast; ring_nf)
  · exact within_of_int _ (max (max r.ry r.ry) (max (r.ry + r.rh) (r.ry + r.rh)))
      (by push_cast; ring_nf)

/-- C2: anti-aliasing setup under the identity device transform (the
quad rect is an integer-pixel rect by construction) returns use_aa =
false — the none result, leaving the caller's local quad and edge array
untouched; and in general whenever the device-space quad is rectilinear
with its bounding box within 1/1024 of the nearest integer rect, the
setup returns none. -/
theorem antialiasing_setup_spec (device_transform : Mat4)
    (q : SharedQuadData) :
    SetupQuadForAntialiasing Mat4.id q = none ∧
    ((device_transform.MapQuad
        (QuadF.ofRectI q.visible_rect)).1.IsRectilinear = true →
     IsNearestRectWithinDistance
       (device_transform.MapQuad
         (QuadF.ofRectI q.visible_rect)).1.BoundingBox
       kAntiAliasingEpsilon = true →
     SetupQuadForAntialiasing device_transform q = none) := by
  constructor
  · unfold SetupQuadForAntialiasing
    rw [MapQuad_id]
    simp [ofRectI_rectilinear, ofRectI_bounding_within]
  · intro h1 h2
    unfold SetupQuadForAntialiasing
    simp [h1, h2]

theorem antialiasing_setup_spec_witness :
    ((Mat4.id.MapQuad
        (QuadF.ofRectI sharedq0.visible_rect)).1.IsRectilinear = true ∧
     IsNearestRectWithinDistance
       (Mat4.id.MapQuad
         (QuadF.ofRectI sharedq0.visible_rect)).1.BoundingBox
       kAntiAliasingEpsilon = true) ∧
    SetupQuadForAntialiasing Mat4.id sharedq0 = none := by
  have h := antialiasing_setup_spec Mat4.id sharedq0
  have h1 : (Mat4.id.MapQuad
      (QuadF.ofRectI sharedq0.visible_rect)).1.IsRectilinear = true := by
    rw [MapQuad_id]
    exact ofRectI_rectilinear _
  have h2 : IsNearestRectWithinDistance
      (Mat4.id.MapQuad
        (QuadF.ofRectI sharedq0.visible_rect)).1.BoundingBox
      kAntiAliasingEpsilon = true := by
    rw [MapQuad_id]
    exact ofRectI_bounding_within _
  exact ⟨⟨h1, h2⟩, h.2 h1 h2⟩

/-- A nested render-pass quad (RenderPassDrawQuad): the referenced pass
id, an optional mask resource, flags describing the attached filters
(one SkImageFilter, a full filter chain, backdrop filters) and the
filter pixel outsets. -/
structure RenderPassQuad where
  q : SharedQuadData
  render_pass_id : ℕ
  mask_resource_id : ℕ
  has_filter : Bool
  filter_is_color_matrix : Bool
  filters_nonempty : Bool
  background_filters_nonempty : Bool
  outset_top : ℤ
  outset_right : ℤ
  outset_bottom : ℤ
  outset_left : ℤ
  mask_uv_x : ℚ
  mask_uv_y : ℚ
  mask_uv_w : ℚ
  mask_uv_h : ℚ
deriving DecidableEq, Repr

/-- Oracle record for the external collaborators the render-pass path
consults: the offscreen filter context (may be absent), the framebuffer
read-back allocation, the background texture allocation, and the GL ids
the collaborators hand back. -/
structure Externals where
  offscreen_context_ok : Bool
  readback_ok : Bool
  background_alloc_ok : Bool
  filtered_texture_id : ℕ
  background_texture_id : ℕ
deriving DecidableEq, Repr

/-- ApplyFilters (static helper): empty filter chains and a missing
offscreen filter context yield no filtered bitmap; otherwise the filter
evaluator returns a texture-backed bitmap. -/
def ApplyFilters (ext : Externals) (filtersNonempty : Bool) : Option ℕ :=
  if !filtersNonempty then none
  else if !ext.offscreen_context_ok then none
  else some ext.filtered_texture_id

/-- ApplyImageFilter (static helper): a null filter and a missing
offscreen filter context yield no filtered bitmap. -/
def ApplyImageFilter (ext : Externals) (hasFilter : Bool) : Option ℕ :=
  if !hasFilter then none
  else if !ext.offscreen_context_ok then none
  else some ext.filtered_texture_id

/-- Modelled from the spec: gfx::ToEnclosingRect (ui/gfx, not under
src/): the smallest integer rect containing the rational rect. -/
def ToEnclosingRect (r : RectQ) : RectI :=
  ⟨⌊r.qx⌋, ⌊r.qy⌋, ⌈r.right⌉ - ⌊r.qx⌋, ⌈r.bottom⌉ - ⌊r.qy⌋⟩

/-- gfx::Rect::Inset by four side amounts (left, top, right, bottom);
negative amounts grow the rect. -/
def RectI.Inset (r : RectI) (l t rr b : ℤ) : RectI :=
  ⟨r.rx + l, r.ry + t, r.rw - l - rr, r.rh - t - b⟩

/-- gfx::Rect::Intersect: the intersection, empty-normalized. -/
def RectI.Intersect (a b : RectI) : RectI :=
  let nx := max a.rx b.rx
  let ny := max a.ry b.ry
  let nr := min a.right b.right
  let nb := min a.bottom b.bottom
  ⟨nx, ny, max 0 (nr - nx), max 0 (nb - ny)⟩

/-- The shared geometry quad of the renderer: the unit rect centered at
the origin (shared_geometry_quad_ in the source). -/
def SharedGeometryQuad : QuadF := QuadF.ofRectQ ⟨-1 / 2, -1 / 2, 1, 1⟩

/-- GLRenderer::GetFramebufferTexture: allocate a texture sized to the
device rect and copy the framebuffer pixels into it; allocation may
fail (oracle), in which case nothing is copied. -/
def GetFramebufferTexture (ext : Externals) (device_rect : RectI) :
    Bool × List GLCmd :=
  if !ext.readback_ok then (false, [])
  else (true, [GLCmd.bindTexture GLTexture2D ext.filtered_texture_id,
               GLCmd.copyTexImage2D device_rect.rx device_rect.ry
                 device_rect.rw device_rect.rh])

/-- GLRenderer::CopyTextureToFramebuffer: bind the given texture, use
the plain render-pass program, upload the full-texture transform and
unit opacity, and draw the rect with the given matrix. -/
def CopyTextureToFramebuffer (frame : DrawingFrame) (s : RState)
    (texture_id : ℕ) (rect : RectI) (draw_matrix : Mat4) :
    RState × List GLCmd :=
  let precision := TexCoordPrecisionRequired s.highp_threshold_min
      rect.right rect.bottom
  let prog := progId ProgramKind.renderPass precision
  let p := SetUseProgram s prog
  (p.1, [GLCmd.bindTexture GLTexture2D texture_id] ++ p.2 ++
    [GLCmd.uniform1i samplerLoc 0,
     GLCmd.uniform4f texTransformLoc 0 0 1 1] ++
    SetShaderOpacity 1 alphaLoc ++
    DrawQuadGeometry frame draw_matrix (RectQ.ofRectI rect) matrixLoc)

/-- GLRenderer::DrawBackgroundFilters: apply the backdrop filter chain
to the pixels behind the quad.  Skipped entirely (no texture) when the
current pass has a transparent background; otherwise read back the
outset device-space bounding rect, run the filter chain through the
offscreen evaluator, allocate a destination texture of the quad size,
remap the filtered pixels into it through the inverse content
transform, restore the original render target, and hand back the
background texture.  Any allocation or filter failure yields no
texture. -/
def DrawBackgroundFilters (frame : DrawingFrame) (s : RState)
    (quad : RenderPassQuad) (contents_device_transform : Mat4)
    (contents_device_transform_inverse : Mat4) (ext : Externals) :
    RState × List GLCmd × Option ℕ :=
  if frame.has_transparent_background then (s, [], none)
  else
    let mapped := contents_device_transform.MapQuad SharedGeometryQuad
    let device_rect0 := ToEnclosingRect mapped.1.BoundingBox
    let device_rect1 := device_rect0.Inset (-quad.outset_left)
        (-quad.outset_top) (-quad.outset_right) (-quad.outset_bottom)
    let device_rect := device_rect1.Intersect frame.output_rect
    let rb := GetFramebufferTexture ext device_rect
    if !rb.1 then (s, rb.2, none)
    else
      match ApplyFilters ext quad.background_filters_nonempty with
      | none => (s, rb.2, none)
      | some filtered_tex =>
        if !ext.background_alloc_ok then (s, rb.2, none)
        else
          let device_to_framebuffer_transform :=
            ((Mat4.id.Translate
                ((quad.q.rect.rw : ℚ) / 2 + (quad.q.rect.rx : ℚ))
                ((quad.q.rect.rh : ℚ) / 2 + (quad.q.rect.ry : ℚ))).Scale
              (quad.q.rect.rw : ℚ) (quad.q.rect.rh : ℚ)).mul
              contents_device_transform_inverse
          let bindCmds := [GLCmd.bindFramebuffer 1,
                           GLCmd.framebufferTexture2D ext.background_texture_id,
                           GLCmd.viewportCmd quad.q.rect.rw quad.q.rect.rh]
          let copy := CopyTextureToFramebuffer frame s filtered_tex
              device_rect device_to_framebuffer_transform
          let restoreCmds := [GLCmd.bindFramebuffer 0]
          (copy.1, rb.2 ++ bindCmds ++ copy.2 ++ restoreCmds,
           some ext.background_texture_id)

/-- GLRenderer::DrawRenderPassQuad: silently skip the quad when the
referenced pass has no cached texture (or a zero GL id) or when the
flattened contents device transform is not invertible; otherwise
optionally run the background-filter compositor with blending
temporarily off, resolve the content filters (a pure color matrix is
applied in-shader, anything else through the offscreen evaluator), draw
the filtered background replacement if one was produced, select among
the eight render-pass program variants by (use_aa, has mask, has color
matrix), upload the variant uniforms, and draw. -/
def DrawRenderPassQuad (frame : DrawingFrame) (s : RState)
    (quad : RenderPassQuad) (ext : Externals) : RState × List GLCmd :=
  let p1 := SetBlendEnabled s quad.q.blending
  match lookupRenderPassTexture s.render_pass_textures quad.render_pass_id with
  | none => (p1.1, p1.2)
  | some contents_texture =>
    if contents_texture.rid == 0 then (p1.1, p1.2)
    else
      let quad_rect_matrix := QuadRectTransform quad.q.transform
          (RectQ.ofRectI quad.q.rect)
      let contents_device_transform :=
        ((frame.window_matrix.mul frame.projection_matrix).mul
          quad_rect_matrix).FlattenTo2d
      if !contents_device_transform.IsInvertible then (p1.1, p1.2)
      else
        let contents_device_transform_inverse :=
          contents_device_transform.inverse
        let bg :=
          if quad.background_filters_nonempty then
            let disable_blending := p1.1.blend_shadow
            let pA := if disable_blending then SetBlendEnabled p1.1 false
              else (p1.1, [])
            let dbf := DrawBackgroundFilters frame pA.1 quad
              contents_device_transform contents_device_transform_inverse ext
            let pC := if disable_blending then SetBlendEnabled dbf.1 true
              else (dbf.1, [])
            (pC.1, pA.2 ++ dbf.2.1 ++ pC.2, dbf.2.2)
          else (p1.1, ([] : List GLCmd), (none : Option ℕ))
        let use_color_matrix := quad.has_filter && quad.filter_is_color_matrix
        let filter_tex : Option ℕ :=
          if quad.has_filter then
            if quad.filter_is_color_matrix then none
            else ApplyImageFilter ext quad.has_filter
          else ApplyFilters ext quad.filters_nonempty
        let bgDraw :=
          match bg.2.2 with
          | some bgid => CopyTextureToFramebuffer frame bg.1 bgid
              quad.q.rect quad.q.transform
          | none => (bg.1, [])
        let device_quad :=
          (contents_device_transform.MapQuad SharedGeometryQuad).1
        let use_aa := !(device_quad.IsRectilinear &&
          IsNearestRectWithinDistance device_quad.BoundingBox
            kAntiAliasingEpsilon)
        let _device_layer_bounds :=
          LayerQuadM.ofQuad (QuadF.ofRectQ device_quad.BoundingBox)
        let device_layer_edges0 := LayerQuadM.ofQuad device_quad
        let device_layer_edges := if use_aa then device_layer_edges0.inflateAA
          else device_layer_edges0
        let hasMask := quad.mask_resource_id != 0
        let contentsBind :=
          match filter_tex with
          | some ft => [GLCmd.bindTexture GLTexture2D ft]
          | none => [GLCmd.bindTexture GLTexture2D contents_texture.rid,
                     GLCmd.texParameterFilter GLLinear]
        let precision := TexCoordPrecisionRequired s.highp_threshold_min
            quad.q.visible_content_right quad.q.visible_content_bottom
        let kind :=
          if use_aa && hasMask && !use_color_matrix then
            ProgramKind.renderPassMaskAA
          else if !use_aa && hasMask && !use_color_matrix then
            ProgramKind.renderPassMask
          else if use_aa && !hasMask && !use_color_matrix then
            ProgramKind.renderPassAA
          else if use_aa && hasMask && use_color_matrix then
            ProgramKind.renderPassMaskColorMatrixAA
          else if use_aa && !hasMask && use_color_matrix then
            ProgramKind.renderPassColorMatrixAA
          else if !use_aa && hasMask && use_color_matrix then
            ProgramKind.renderPassMaskColorMatrix
          else if !use_aa && !hasMask && use_color_matrix then
            ProgramKind.renderPassColorMatrix
          else ProgramKind.renderPass
        let shader_quad_location := if use_aa then pointLoc else -1
        let shader_edge_location := if use_aa then edgeLoc else -1
        let shader_mask_sampler_location :=
          if hasMask then maskSamplerLoc else -1
        let shader_matrix_location := matrixLoc
        let shader_alpha_location := alphaLoc
        let shader_color_matrix_location :=
          if use_color_matrix then colorMatrixLoc else -1
        let shader_color_offset_location :=
          if use_color_matrix then colorOffsetLoc else -1
        let shader_tex_transform_location :=
          if use_aa then -1 else texTransformLoc
        let shader_tex_scale_location := if use_aa then texScaleLoc else -1
        let p2 := SetUseProgram bgDraw.1 (progId kind precision)
        let progCmds := p2.2 ++ [GLCmd.uniform1i samplerLoc 0]
        let tex_scale_x := (quad.q.rect.rw : ℚ) / (contents_texture.sw : ℚ)
        let tex_scale_y := (quad.q.rect.rh : ℚ) / (contents_texture.sh : ℚ)
        let texCmds :=
          if shader_tex_transform_location != -1 then
            [GLCmd.uniform4f shader_tex_transform_location 0 0
               tex_scale_x tex_scale_y]
          else if shader_tex_scale_location != -1 then
            [GLCmd.uniform2f shader_tex_scale_location tex_scale_x tex_scale_y]
          else []
        let maskCmds :=
          if shader_mask_sampler_location != -1 then
            [GLCmd.activeTexture 1,
             GLCmd.uniform1i shader_mask_sampler_location 1,
             GLCmd.uniform2f maskTexCoordOffsetLoc quad.mask_uv_x
               quad.mask_uv_y,
             GLCmd.uniform2f maskTexCoordScaleLoc
               (quad.mask_uv_w / tex_scale_x) (quad.mask_uv_h / tex_scale_y),
             GLCmd.bindTexture GLTexture2D quad.mask_resource_id,
             GLCmd.activeTexture 0]
          else []
        let edgeCmds :=
          if shader_edge_location != -1 then
            [GLCmd.uniform3fv shader_edge_location 8]
          else []
        let colorMatrixCmds :=
          if shader_color_matrix_location != -1 then
            [GLCmd.uniformMatrix4fvN shader_color_matrix_location 1]
          else []
        let colorOffsetCmds :=
          if shader_color_offset_location != -1 then
            [GLCmd.uniform4fvN shader_color_offset_location 1]
          else []
        let surface_quad := (contents_device_transform_inverse.MapQuad
            device_layer_edges.toQuadF).1
        let opCmds := SetShaderOpacity quad.q.opacity shader_alpha_location
        let quadCmds := SetShaderQuadF surface_quad shader_quad_location
        let drawCmds := DrawQuadGeometry frame quad.q.transform
            (RectQ.ofRectI quad.q.rect) shader_matrix_location
        let flushCmds :=
          match filter_tex with
          | some _ => [GLCmd.flushContext]
          | none => []
        (p2.1, p1.2 ++ bg.2.1 ++ bgDraw.2 ++ contentsBind ++ progCmds ++
          texCmds ++ maskCmds ++ edgeCmds ++ colorMatrixCmds ++
          colorOffsetCmds ++ opCmds ++ quadCmds ++ drawCmds ++ flushCmds)

/-- A blend-shadow update issues no draw call. -/
theorem drawCalls_SetBlendEnabled (s : RState) (b : Bool) :
    drawCalls (SetBlendEnabled s b).2 = [] := by
  unfold SetBlendEnabled drawCalls
  split_ifs <;> simp [GLCmd.isDrawCall]

/-- The blend shadow after a blend-shadow update is the requested
value. -/
theorem SetBlendEnabled_shadow (s : RState) (b : Bool) :
    (SetBlendEnabled s b).1.blend_shadow = b := by
  unfold SetBlendEnabled
  split_ifs with h
  · exact (beq_iff_eq.mp h).symm
  all_goals rfl

/-- C3: background-filter application on a render pass with a
transparent background always returns no texture, issues no commands
and leaves the state untouched, regardless of the filter chain and the
external collaborators. -/
theorem background_filters_transparent_spec (frame : DrawingFrame)
    (s : RState) (quad : RenderPassQuad) (cdt cdtInv : Mat4)
    (ext : Externals) (h : frame.has_transparent_background = true) :
    DrawBackgroundFilters frame s quad cdt cdtInv ext = (s, [], none) := by
  unfold DrawBackgroundFilters
  rw [if_pos h]

/-- A sample drawing frame whose current render pass has a transparent
background. -/
def frameT : DrawingFrame :=
  ⟨Mat4.id, Mat4.id, true, ⟨0, 0, 100, 100⟩, true⟩

/-- A sample render-pass quad referencing pass 1 with nonempty backdrop
filters and no mask. -/
def rpassq0 : RenderPassQuad :=
  ⟨sharedq0, 1, 0, false, false, false, true, 0, 0, 0, 0, 0, 0, 1, 1⟩

/-- A sample externals oracle where every collaborator succeeds. -/
def ext0 : Externals := ⟨true, true, true, 50, 60⟩

theorem background_filters_transparent_spec_witness :
    frameT.has_transparent_background = true ∧
    DrawBackgroundFilters frameT state0 rpassq0 Mat4.id Mat4.id ext0 =
      (state0, [], none) :=
  ⟨rfl, background_filters_transparent_spec frameT state0 rpassq0
    Mat4.id Mat4.id ext0 rfl⟩

/-- C4: a render-pass quad whose referenced pass id has no cached
texture, or a cached texture with GL id 0, is a silent no-op: the
dispatch returns having touched only the blend shadow and issues no
draw call. -/
theorem render_pass_missing_texture_spec (frame : DrawingFrame)
    (s : RState) (quad : RenderPassQuad) (ext : Externals)
    (h : lookupRenderPassTexture s.render_pass_textures
           quad.render_pass_id = none ∨
         ∃ t, lookupRenderPassTexture s.render_pass_textures
           quad.render_pass_id = some t ∧ t.rid = 0) :
    DrawRenderPassQuad frame s quad ext =
      ((SetBlendEnabled s quad.q.blending).1,
       (SetBlendEnabled s quad.q.blending).2) ∧
    drawCalls (DrawRenderPassQuad frame s quad ext).2 = [] := by
  have hres : DrawRenderPassQuad frame s quad ext =
      ((SetBlendEnabled s quad.q.blending).1,
       (SetBlendEnabled s quad.q.blending).2) := by
    rcases h with hn | ⟨t, ht, hz⟩
    · unfold DrawRenderPassQuad
      rw [hn]
    · unfold DrawRenderPassQuad
      rw [ht]
      simp [hz]
  refine ⟨hres, ?_⟩
  rw [hres]
  exact drawCalls_SetBlendEnabled s quad.q.blending

theorem render_pass_missing_texture_spec_witness :
    lookupRenderPassTexture state0.render_pass_textures
      rpassq0.render_pass_id = none ∧
    drawCalls (DrawRenderPassQuad frame0 state0 rpassq0 ext0).2 = [] := by
  have h := render_pass_missing_texture_spec frame0 state0 rpassq0 ext0
    (Or.inl (by decide))
  exact ⟨by decide, h.2⟩

/-- C7: a quad whose flattened device-space transform (window matrix *
projection matrix * quad transform, with the render-pass variant
composing the quad-rect transform first) is not invertible is silently
skipped: the solid-color, content and render-pass dispatch routines
issue no draw call for it. -/
theorem noninvertible_transform_skip_spec (frame : DrawingFrame)
    (s : RState) (sq : SolidColorQuad) (cq : ContentQuad)
    (rq : RenderPassQuad) (ext : Externals) :
    ((deviceTransformOf frame sq.q.transform).IsInvertible = false →
      drawCalls (DrawSolidColorQuad frame s sq).2 = []) ∧
    ((deviceTransformOf frame cq.q.transform).IsInvertible = false →
      drawCalls (DrawContentQuad frame s cq).2 = []) ∧
    ((((frame.window_matrix.mul frame.projection_matrix).mul
        (QuadRectTransform rq.q.transform
          (RectQ.ofRectI rq.q.rect))).FlattenTo2d).IsInvertible = false →
      drawCalls (DrawRenderPassQuad frame s rq ext).2 = []) := by
  refine ⟨?_, ?_, ?_⟩
  · intro h
    have : DrawSolidColorQuad frame s sq =
        ((SetBlendEnabled s sq.q.blending).1,
         (SetBlendEnabled s sq.q.blending).2) := by
      simp only [DrawSolidColorQuad]
      rw [h]
      simp
    rw [this]
    exact drawCalls_SetBlendEnabled s sq.q.blending
  · intro h
    have : DrawContentQuad frame s cq = (s, []) := by
      simp only [DrawContentQuad]
      rw [h]
      simp
    rw [this]
    rfl
  · intro h
    rcases hl : lookupRenderPassTexture s.render_pass_textures
        rq.render_pass_id with _ | t
    · have : DrawRenderPassQuad frame s rq ext =
          ((SetBlendEnabled s rq.q.blending).1,
           (SetBlendEnabled s rq.q.blending).2) := by
        unfold DrawRenderPassQuad
        rw [hl]
      rw [this]
      exact drawCalls_SetBlendEnabled s rq.q.blending
    · by_cases hz : t.rid = 0
      · have := render_pass_missing_texture_spec frame s rq ext
          (Or.inr ⟨t, hl, hz⟩)
        exact this.2
      · have : DrawRenderPassQuad frame s rq ext =
            ((SetBlendEnabled s rq.q.blending).1,
             (SetBlendEnabled s rq.q.blending).2) := by
          simp only [DrawRenderPassQuad]
          rw [hl]
          simp only [beq_iff_eq, hz, if_false]
          rw [h]
          simp
        rw [this]
        exact drawCalls_SetBlendEnabled s rq.q.blending

/-- The all-zero quad transform: collapses everything, so the flattened
device transform is singular. -/
def zeroTransform : Mat4 :=
  ⟨0, 0, 0, 0, 0, 0, 0, 0, 0, 0, 0, 0, 0, 0, 0, 0⟩

/-- Sample shared quad fields with the degenerate zero transform. -/
def sharedqZero : SharedQuadData :=
  { sharedq0 with transform := zeroTransform }

/-- A solid-color quad with the degenerate transform (opaque red). -/
def solidqZero : SolidColorQuad := ⟨sharedqZero, 4294901760⟩

/-- A content quad with the degenerate transform. -/
def contentqZero : ContentQuad :=
  ⟨sharedqZero, 7, ⟨0, 0, 10, 10⟩, 10, 10, false⟩

/-- A render-pass quad with the degenerate transform. -/
def rpassqZero : RenderPassQuad :=
  ⟨sharedqZero, 1, 0, false, false, false, false, 0, 0, 0, 0, 0, 0, 1, 1⟩

/-- A renderer state caching a live texture for render pass 1. -/
def stateRP : RState :=
  { state0 with render_pass_textures := [(1, ⟨5, 10, 10⟩)] }

theorem noninvertible_transform_skip_spec_witness :
    ((deviceTransformOf frame0 solidqZero.q.transform).IsInvertible =
       false ∧
     (deviceTransformOf frame0 contentqZero.q.transform).IsInvertible =
       false ∧
     (((frame0.window_matrix.mul frame0.projection_matrix).mul
        (QuadRectTransform rpassqZero.q.transform
          (RectQ.ofRectI rpassqZero.q.rect))).FlattenTo2d).IsInvertible =
       false) ∧
    drawCalls (DrawSolidColorQuad frame0 state0 solidqZero).2 = [] ∧
    drawCalls (DrawContentQuad frame0 state0 contentqZero).2 = [] ∧
    drawCalls (DrawRenderPassQuad frame0 stateRP rpassqZero ext0).2 = [] := by
  have hsolid : (deviceTransformOf frame0
      solidqZero.q.transform).IsInvertible = false := by
    norm_num [deviceTransformOf, frame0, solidqZero, sharedqZero,
      zeroTransform, sharedq0, Mat4.mul, Mat4.id, Mat4.FlattenTo2d,
      Mat4.IsInvertible, Mat4.det]
  have hcontent : (deviceTransformOf frame0
      contentqZero.q.transform).IsInvertible = false := by
    norm_num [deviceTransformOf, frame0, contentqZero, sharedqZero,
      zeroTransform, sharedq0, Mat4.mul, Mat4.id, Mat4.FlattenTo2d,
      Mat4.IsInvertible, Mat4.det]
  have hrp : (((frame0.window_matrix.mul frame0.projection_matrix).mul
      (QuadRectTransform rpassqZero.q.transform
        (RectQ.ofRectI rpassqZero.q.rect))).FlattenTo2d).IsInvertible =
      false := by
    norm_num [frame0, rpassqZero, sharedqZero, zeroTransform, sharedq0,
      QuadRectTransform, Mat4.Translate, Mat4.Scale, RectQ.ofRectI,
      Mat4.mul, Mat4.id, Mat4.FlattenTo2d, Mat4.IsInvertible, Mat4.det]
  have h1 := noninvertible_transform_skip_spec frame0 state0 solidqZero
    contentqZero rpassqZero ext0
  have h2 := noninvertible_transform_skip_spec frame0 stateRP solidqZero
    contentqZero rpassqZero ext0
  exact ⟨⟨hsolid, hcontent, hrp⟩, h1.1 hsolid, h1.2.1 hcontent,
    h2.2.2 hrp⟩

/-- C8: after dispatching a solid-color or content quad whose flattened
device transform is invertible, the blend-enable shadow equals the quad
blending requirement OR the anti-aliasing setup result: anti-aliasing
forces blending on even for otherwise-opaque quads. -/
theorem blend_state_spec (frame : DrawingFrame) (s : RState)
    (sq : SolidColorQuad) (cq : ContentQuad) :
    ((deviceTransformOf frame sq.q.transform).IsInvertible = true →
      (DrawSolidColorQuad frame s sq).1.blend_shadow =
        (sq.q.blending || (SetupQuadForAntialiasing
          (deviceTransformOf frame sq.q.transform) sq.q).isSome)) ∧
    ((deviceTransformOf frame cq.q.transform).IsInvertible = true →
      (DrawContentQuad frame s cq).1.blend_shadow =
        (cq.q.blending || (SetupQuadForAntialiasing
          (deviceTransformOf frame cq.q.transform) cq.q).isSome)) := by
  constructor
  · intro h
    simp only [DrawSolidColorQuad]
    rw [h]
    simp [SetBlendEnabled_shadow]
  · intro h
    simp only [DrawContentQuad]
    rw [h]
    simp [SetBlendEnabled_shadow]

/-- A solid-color quad with the identity transform (opaque red). -/
def solidqId : SolidColorQuad := ⟨sharedq0, 4294901760⟩

theorem blend_state_spec_witness :
    (deviceTransformOf frame0 solidqId.q.transform).IsInvertible = true ∧
    (DrawSolidColorQuad frame0 state0 solidqId).1.blend_shadow =
      (solidqId.q.blending || (SetupQuadForAntialiasing
        (deviceTransformOf frame0 solidqId.q.transform)
        solidqId.q).isSome) := by
  have hinv : (deviceTransformOf frame0
      solidqId.q.transform).IsInvertible = true := by
    norm_num [deviceTransformOf, frame0, solidqId, sharedq0,
      Mat4.mul, Mat4.id, Mat4.FlattenTo2d, Mat4.IsInvertible, Mat4.det]
  exact ⟨hinv,
    (blend_state_spec frame0 state0 solidqId contentqZero).1 hinv⟩

/-- A checkerboard placeholder quad (CheckerboardDrawQuad). -/
structure CheckerboardQuad where
  q : SharedQuadData
  color : ℕ
deriving DecidableEq, Repr

/-- A debug-border quad (DebugBorderDrawQuad). -/
structure DebugBorderQuad where
  q : SharedQuadData
  color : ℕ
  width : ℚ
deriving DecidableEq, Repr

/-- An IOSurface quad (IOSurfaceDrawQuad). -/
structure IOSurfaceQuad where
  q : SharedQuadData
  io_surface_size_w : ℤ
  io_surface_size_h : ℤ
  orientation_flipped : Bool
  io_surface_resource_id : ℕ
deriving DecidableEq, Repr

/-- A stream-video quad (StreamVideoDrawQuad). -/
structure StreamVideoQuad where
  q : SharedQuadData
  resource_id : ℕ
  matrix : Mat4
deriving DecidableEq, Repr

/-- A tri-plane YUV video quad (YUVVideoDrawQuad). -/
structure YUVVideoQuad where
  q : SharedQuadData
  y_plane_resource_id : ℕ
  u_plane_resource_id : ℕ
  v_plane_resource_id : ℕ
  tex_scale_w : ℚ
  tex_scale_h : ℚ
deriving DecidableEq, Repr

/-- An on-demand rasterized picture quad (PictureDrawQuad), drawn as
tiled content from the raster upload target. -/
structure PictureQuad where
  c : ContentQuad
deriving DecidableEq, Repr

/-- GLRenderer::DrawCheckerboardQuad: bind the checkerboard program,
upload the quad color with the alpha component forced to 1 (the color
alpha channel is ignored; only the opacity uniform attenuates), the
checkerboard phase/scale derived from the quad rect with a fixed
16-pixel frequency, the opacity, and draw. -/
def DrawCheckerboardQuad (frame : DrawingFrame) (s : RState)
    (quad : CheckerboardQuad) : RState × List GLCmd :=
  let p1 := SetBlendEnabled s quad.q.blending
  let p2 := SetUseProgram p1.1
      (progId ProgramKind.tileCheckerboard TexCoordPrecision.medium)
  let color := quad.color
  let colorCmd := GLCmd.uniform4f colorLoc
      ((SkColorGetR color : ℚ) * (1 / 255))
      ((SkColorGetG color : ℚ) * (1 / 255))
      ((SkColorGetB color : ℚ) * (1 / 255)) 1
  let checkerboard_width : ℤ := 16
  let frequency : ℚ := 1 / 16
  let tile_rect := quad.q.rect
  let tex_offset_x : ℚ := ((Int.tmod tile_rect.rx checkerboard_width : ℤ) : ℚ)
  let tex_offset_y : ℚ := ((Int.tmod tile_rect.ry checkerboard_width : ℤ) : ℚ)
  let tex_scale_x : ℚ := (tile_rect.rw : ℚ)
  let tex_scale_y : ℚ := (tile_rect.rh : ℚ)
  let texCmd := GLCmd.uniform4f texTransformLoc tex_offset_x tex_offset_y
      tex_scale_x tex_scale_y
  let freqCmd := GLCmd.uniform1f frequencyLoc frequency
  let opCmds := SetShaderOpacity quad.q.opacity alphaLoc
  let drawCmds := DrawQuadGeometry frame quad.q.transform
      (RectQ.ofRectI quad.q.rect) matrixLoc
  (p2.1, p1.2 ++ p2.2 ++ [colorCmd, texCmd, freqCmd] ++ opCmds ++ drawCmds)

/-- GLRenderer::DrawDebugBorderQuad: bind the debug-border program,
upload the render matrix and the premultiplied border color, set the
line width, and draw a 4-index line loop. -/
def DrawDebugBorderQuad (frame : DrawingFrame) (s : RState)
    (quad : DebugBorderQuad) : RState × List GLCmd :=
  let p1 := SetBlendEnabled s quad.q.blending
  let p2 := SetUseProgram p1.1
      (progId ProgramKind.debugBorder TexCoordPrecision.medium)
  let render_matrix := QuadRectTransform quad.q.transform
      (RectQ.ofRectI quad.q.rect)
  let m := frame.projection_matrix.mul render_matrix
  let color := quad.color
  let alpha := (SkColorGetA color : ℚ) * (1 / 255)
  let cmds := [GLCmd.uniformMatrix4fv matrixLoc [m],
               GLCmd.uniform4f colorLoc
                 ((SkColorGetR color : ℚ) * (1 / 255) * alpha)
                 ((SkColorGetG color : ℚ) * (1 / 255) * alpha)
                 ((SkColorGetB color : ℚ) * (1 / 255) * alpha) alpha,
               GLCmd.lineWidth quad.width,
               GLCmd.drawElements GLLineLoop 4]
  (p2.1, p1.2 ++ p2.2 ++ cmds)

/-- GLRenderer::DrawIOSurfaceQuad: bind the IOSurface texture program,
upload the (possibly Y-flipped) texture transform and the four vertex
opacities, bind the rectangle texture, draw, and unbind. -/
def DrawIOSurfaceQuad (frame : DrawingFrame) (s : RState)
    (quad : IOSurfaceQuad) : RState × List GLCmd :=
  let p1 := SetBlendEnabled s quad.q.blending
  let precision := TexCoordPrecisionRequired s.highp_threshold_min
      quad.q.visible_content_right quad.q.visible_content_bottom
  let p2 := SetUseProgram p1.1 (progId ProgramKind.textureIOSurface precision)
  let texCmd :=
    if quad.orientation_flipped then
      GLCmd.uniform4f texTransformLoc 0 (quad.io_surface_size_h : ℚ)
        (quad.io_surface_size_w : ℚ) (-(quad.io_surface_size_h : ℚ))
    else
      GLCmd.uniform4f texTransformLoc 0 0 (quad.io_surface_size_w : ℚ)
        (quad.io_surface_size_h : ℚ)
  let op := quad.q.opacity
  let cmds := [GLCmd.uniform1i samplerLoc 0, texCmd,
               GLCmd.uniform1fv vertexOpacityLoc [op, op, op, op],
               GLCmd.bindTexture GLTextureRectangle
                 quad.io_surface_resource_id] ++
    DrawQuadGeometry frame quad.q.transform (RectQ.ofRectI quad.q.rect)
      matrixLoc ++
    [GLCmd.bindTexture GLTextureRectangle 0]
  (p2.1, p1.2 ++ p2.2 ++ cmds)

/-- GLRenderer::DrawStreamVideoQuad: bind the external-texture stream
program, upload the stream texture matrix, bind the external texture,
upload sampler and opacity, and draw. -/
def DrawStreamVideoQuad (frame : DrawingFrame) (s : RState)
    (quad : StreamVideoQuad) : RState × List GLCmd :=
  let p1 := SetBlendEnabled s quad.q.blending
  let precision := TexCoordPrecisionRequired s.highp_threshold_min
      quad.q.visible_content_right quad.q.visible_content_bottom
  let p2 := SetUseProgram p1.1 (progId ProgramKind.videoStream precision)
  let cmds := [GLCmd.uniformMatrix4fvN texMatrixLoc 1,
               GLCmd.bindTexture GLTextureExternal quad.resource_id,
               GLCmd.uniform1i samplerLoc 0] ++
    SetShaderOpacity quad.q.opacity alphaLoc ++
    DrawQuadGeometry frame quad.q.transform (RectQ.ofRectI quad.q.rect)
      matrixLoc
  (p2.1, p1.2 ++ p2.2 ++ cmds)

/-- GLRenderer::DrawYUVVideoQuad: bind the three Y/U/V plane samplers on
texture units 1-3, bind the YUV program, upload the tex scale, the
plane sampler indices, the fixed YUV-to-RGB conversion matrix and level
adjust constants, opacity, draw, and restore texture unit 0. -/
def DrawYUVVideoQuad (frame : DrawingFrame) (s : RState)
    (quad : YUVVideoQuad) : RState × List GLCmd :=
  let p1 := SetBlendEnabled s quad.q.blending
  let precision := TexCoordPrecisionRequired s.highp_threshold_min
      quad.q.visible_content_right quad.q.visible_content_bottom
  let bindCmds := [GLCmd.activeTexture 1,
                   GLCmd.bindTexture GLTexture2D quad.y_plane_resource_id,
                   GLCmd.activeTexture 2,
                   GLCmd.bindTexture GLTexture2D quad.u_plane_resource_id,
                   GLCmd.activeTexture 3,
                   GLCmd.bindTexture GLTexture2D quad.v_plane_resource_id]
  let p2 := SetUseProgram p1.1 (progId ProgramKind.videoYUV precision)
  let cmds := [GLCmd.uniform2f texScaleLoc quad.tex_scale_w quad.tex_scale_h,
               GLCmd.uniform1i yTextureLoc 1,
               GLCmd.uniform1i uTextureLoc 2,
               GLCmd.uniform1i vTextureLoc 3,
               GLCmd.uniformMatrix3fv yuvMatrixLoc 1,
               GLCmd.uniform3fv yuvAdjLoc 1] ++
    SetShaderOpacity quad.q.opacity alphaLoc ++
    DrawQuadGeometry frame quad.q.transform (RectQ.ofRectI quad.q.rect)
      matrixLoc ++
    [GLCmd.activeTexture 0]
  (p2.1, p1.2 ++ bindCmds ++ p2.2 ++ cmds)

/-- GLRenderer::DrawPictureQuad: rasterize the recording into the
on-demand raster texture and draw it as tiled content.  The bitmap
reallocation bookkeeping (reuse when the size is unchanged) is
condensed to the upload command — no claim inspects it. -/
def DrawPictureQuad (frame : DrawingFrame) (s : RState)
    (quad : PictureQuad) : RState × List GLCmd :=
  let raster := [GLCmd.setPixels quad.c.resource_id]
  let d := DrawContentQuad frame s quad.c
  (d.1, raster ++ d.2)

/-- The quad material enumeration (DrawQuad::Material, INVALID left
out). -/
inductive Material where
  | checkerboard
  | debugBorder
  | ioSurfaceContent
  | pictureContent
  | renderPass
  | solidColor
  | streamVideoContent
  | textureContent
  | tiledContent
  | yuvVideoContent
deriving DecidableEq, Repr

/-- One quad with its material payload. -/
inductive QuadData where
  | checkerboard (c : CheckerboardQuad)
  | debugBorder (d : DebugBorderQuad)
  | ioSurface (i : IOSurfaceQuad)
  | picture (p : PictureQuad)
  | renderPass (r : RenderPassQuad)
  | solidColor (sc : SolidColorQuad)
  | streamVideo (v : StreamVideoQuad)
  | texture (t : TextureQuad)
  | tiled (c : ContentQuad)
  | yuvVideo (y : YUVVideoQuad)
deriving DecidableEq, Repr

/-- The material of a quad payload. -/
def QuadData.material : QuadData → Material
  | .checkerboard _ => .checkerboard
  | .debugBorder _ => .debugBorder
  | .ioSurface _ => .ioSurfaceContent
  | .picture _ => .pictureContent
  | .renderPass _ => .renderPass
  | .solidColor _ => .solidColor
  | .streamVideo _ => .streamVideoContent
  | .texture _ => .textureContent
  | .tiled _ => .tiledContent
  | .yuvVideo _ => .yuvVideoContent

/-- The material switch of DoDrawQuad: dispatch one quad to its drawing
routine (texture quads are deferred into the batching cache). -/
def DispatchQuad (frame : DrawingFrame) (s : RState) (ext : Externals) :
    QuadData → RState × List GLCmd
  | .checkerboard c => DrawCheckerboardQuad frame s c
  | .debugBorder d => DrawDebugBorderQuad frame s d
  | .ioSurface i => DrawIOSurfaceQuad frame s i
  | .picture p => DrawPictureQuad frame s p
  | .renderPass r => DrawRenderPassQuad frame s r ext
  | .solidColor sc => DrawSolidColorQuad frame s sc
  | .streamVideo v => DrawStreamVideoQuad frame s v
  | .texture t => EnqueueTextureQuad frame s t
  | .yuvVideo y => DrawYUVVideoQuad frame s y
  | .tiled c => DrawTileQuad frame s c

/-- GLRenderer::DoDrawQuad: flush the texture batching cache before
dispatching any quad that is not batchable texture content, then
dispatch by material. -/
def DoDrawQuad (frame : DrawingFrame) (s : RState) (ext : Externals)
    (quad : QuadData) : RState × List GLCmd :=
  let pre := if quad.material != Material.textureContent then
      FlushTextureQuadCache s
    else (s, [])
  let d := DispatchQuad frame pre.1 ext quad
  (d.1, pre.2 ++ d.2)

/-- GLRenderer::EnsureScissorTestEnabled: flush the batching cache
before enabling the scissor test; no-op when already enabled. -/
def EnsureScissorTestEnabled (s : RState) : RState × List GLCmd :=
  if s.is_scissor_enabled then (s, [])
  else
    let f := FlushTextureQuadCache s
    ({ f.1 with is_scissor_enabled := true }, f.2 ++ [GLCmd.enableScissor])

/-- GLRenderer::EnsureScissorTestDisabled: flush the batching cache
before disabling the scissor test; no-op when already disabled. -/
def EnsureScissorTestDisabled (s : RState) : RState × List GLCmd :=
  if !s.is_scissor_enabled then (s, [])
  else
    let f := FlushTextureQuadCache s
    ({ f.1 with is_scissor_enabled := false }, f.2 ++ [GLCmd.disableScissor])

/-- GLRenderer::SetScissorTestRect: enable the scissor test, skip the
redundant scissor call when the rect is unchanged, otherwise record the
rect, flush the batching cache, and issue the scissor call. -/
def SetScissorTestRect (s : RState) (r : RectI) : RState × List GLCmd :=
  let p1 := EnsureScissorTestEnabled s
  if r == p1.1.scissor_rect then (p1.1, p1.2)
  else
    let s2 := { p1.1 with scissor_rect := r }
    let f := FlushTextureQuadCache s2
    (f.1, p1.2 ++ f.2 ++ [GLCmd.scissorRect r.rx r.ry r.rw r.rh])

/-- GLRenderer::FinishDrawingQuadList: flush the batching cache at the
end of quad-list processing for a pass. -/
def FinishDrawingQuadList (s : RState) : RState × List GLCmd :=
  FlushTextureQuadCache s

/-- No draw call appears after any scissor state change in the trace. -/
def noDrawAfterScissorChange : List GLCmd → Bool
  | [] => true
  | c :: rest =>
    if c.isScissorStateChange then
      !(rest.any GLCmd.isDrawCall) && noDrawAfterScissorChange rest
    else noDrawAfterScissorChange rest

/-- The spec-level frame matrix setup: DirectRenderer::InitializeMatrices
(not under src/), modelled from the spec: computes the projection matrix
for the target rect — Y axis inverted when the target is flipped — and
the window matrix for the viewport, and records the flip flag. -/
def InitializeMatrices (frame : DrawingFrame) (rect : RectI)
    (flipped : Bool) : DrawingFrame :=
  let ortho := fun (l rr b t : ℚ) => (⟨2 / (rr - l), 0, 0,
      -(rr + l) / (rr - l), 0, 2 / (t - b), 0, -(t + b) / (t - b),
      0, 0, 1, 0, 0, 0, 0, 1⟩ : Mat4)
  { frame with
      projection_matrix :=
        if flipped then
          ortho (rect.rx : ℚ) (rect.right : ℚ) (rect.bottom : ℚ) (rect.ry : ℚ)
        else
          ortho (rect.rx : ℚ) (rect.right : ℚ) (rect.ry : ℚ) (rect.bottom : ℚ),
      window_matrix := (Mat4.id.Translate ((rect.rw : ℚ) / 2)
          ((rect.rh : ℚ) / 2)).Scale ((rect.rw : ℚ) / 2) ((rect.rh : ℚ) / 2),
      flipped_y := flipped }

/-- The GL id of the offscreen framebuffer object. -/
def offscreenFramebufferId : ℕ := 1

/-- GLRenderer::BindFramebufferToTexture: bind the offscreen FBO, attach
the target texture, and set up matrices with the Y-flip flag false —
render-to-texture targets are never flipped. -/
def BindFramebufferToTexture (frame : DrawingFrame) (s : RState)
    (texture : CachedResource) (framebuffer_rect : RectI) :
    DrawingFrame × RState × List GLCmd × Bool :=
  (InitializeMatrices frame framebuffer_rect false, s,
   [GLCmd.bindFramebuffer offscreenFramebufferId,
    GLCmd.framebufferTexture2D texture.rid,
    GLCmd.viewportCmd framebuffer_rect.rw framebuffer_rect.rh],
   true)

/-- GLRenderer::FlippedFramebuffer: the final output-surface
framebuffer is always treated as Y-flipped. -/
def FlippedFramebuffer : Bool := true

/-- Modelled from the spec: binding the root render pass (DirectRenderer
UseRenderPass, not under src/) binds the output-surface framebuffer and
sets up matrices with the FlippedFramebuffer flag. -/
def UseRenderPassRoot (frame : DrawingFrame) (rect : RectI) :
    DrawingFrame × List GLCmd :=
  (InitializeMatrices frame rect FlippedFramebuffer,
   [GLCmd.bindFramebuffer 0, GLCmd.viewportCmd rect.rw rect.rh])

/-- C9: render-to-texture framebuffer binding computes matrices with
the Y-flip flag false, while the final output-surface target uses the
FlippedFramebuffer flag, which is constantly true. -/
theorem framebuffer_flip_spec (frame : DrawingFrame) (s : RState)
    (texture : CachedResource) (rect : RectI) :
    (BindFramebufferToTexture frame s texture rect).1.flipped_y = false ∧
    FlippedFramebuffer = true ∧
    (UseRenderPassRoot frame rect).1.flipped_y = true :=
  ⟨rfl, rfl, rfl⟩

/-- The red byte of a color depends only on its low 24 bits. -/
theorem getR_low24 (c1 c2 : ℕ) (h : c1 % 16777216 = c2 % 16777216) :
    SkColorGetR c1 = SkColorGetR c2 := by
  have h16 : (2 : ℕ) ^ 16 = 65536 := by norm_num
  unfold SkColorGetR
  rw [h16]
  omega

/-- The green byte of a color depends only on its low 24 bits. -/
theorem getG_low24 (c1 c2 : ℕ) (h : c1 % 16777216 = c2 % 16777216) :
    SkColorGetG c1 = SkColorGetG c2 := by
  have h8 : (2 : ℕ) ^ 8 = 256 := by norm_num
  unfold SkColorGetG
  rw [h8]
  omega

/-- The blue byte of a color depends only on its low 24 bits. -/
theorem getB_low24 (c1 c2 : ℕ) (h : c1 % 16777216 = c2 % 16777216) :
    SkColorGetB c1 = SkColorGetB c2 := by
  unfold SkColorGetB
  omega

/-- C10: the checkerboard color uniform carries alpha component
constant 1 (the color alpha channel is ignored; opacity is a separate
uniform), so two checkerboard quads that differ only in the alpha
channel of their color produce identical states and command traces. -/
theorem checkerboard_alpha_ignored_spec (frame : DrawingFrame)
    (s : RState) (q1 q2 : CheckerboardQuad) :
    GLCmd.uniform4f colorLoc ((SkColorGetR q1.color : ℚ) * (1 / 255))
        ((SkColorGetG q1.color : ℚ) * (1 / 255))
        ((SkColorGetB q1.color : ℚ) * (1 / 255)) 1 ∈
      (DrawCheckerboardQuad frame s q1).2 ∧
    (q1.q = q2.q → q1.color % 16777216 = q2.color % 16777216 →
      DrawCheckerboardQuad frame s q1 = DrawCheckerboardQuad frame s q2) := by
  constructor
  · simp only [DrawCheckerboardQuad]
    simp [List.mem_append]
  · intro hq hc
    obtain ⟨sq1, c1⟩ := q1
    obtain ⟨sq2, c2⟩ := q2
    simp only at hq hc
    subst hq
    simp only [DrawCheckerboardQuad]
    rw [getR_low24 c1 c2 hc, getG_low24 c1 c2 hc, getB_low24 c1 c2 hc]

/-- A checkerboard quad with opaque red color 0xFFFF0000. -/
def checkq1 : CheckerboardQuad := ⟨sharedq0, 4294901760⟩

/-- A checkerboard quad with fully transparent red color 0x00FF0000:
same RGB as checkq1, different alpha. -/
def checkq2 : CheckerboardQuad := ⟨sharedq0, 16711680⟩

theorem checkerboard_alpha_ignored_spec_witness :
    (checkq1.q = checkq2.q ∧
     checkq1.color % 16777216 = checkq2.color % 16777216) ∧
    DrawCheckerboardQuad frame0 state0 checkq1 =
      DrawCheckerboardQuad frame0 state0 checkq2 ∧
    GLCmd.uniform4f colorLoc ((SkColorGetR checkq1.color : ℚ) * (1 / 255))
        ((SkColorGetG checkq1.color : ℚ) * (1 / 255))
        ((SkColorGetB checkq1.color : ℚ) * (1 / 255)) 1 ∈
      (DrawCheckerboardQuad frame0 state0 checkq1).2 := by
  have h := checkerboard_alpha_ignored_spec frame0 state0 checkq1 checkq2
  exact ⟨⟨rfl, by decide⟩, h.2 rfl (by decide), h.1⟩

/-- A flush from a well-formed state (program id 0 only with cleared
arrays) always leaves the cache empty. -/
theorem flush_wf_empty (s : RState)
    (hwf : s.draw_cache.program_id = 0 → s.draw_cache.IsEmpty) :
    (FlushTextureQuadCache s).1.draw_cache.IsEmpty := by
  by_cases h : s.draw_cache.program_id = 0
  · rw [flush_empty_cache s h]
    exact hwf h
  · exact (flush_nonempty_cache s h).2

/-- The flush trace contains no scissor state change. -/
theorem flush_trace_scissorFree (s : RState) :
    (FlushTextureQuadCache s).2.all
      (fun c => !c.isScissorStateChange) = true := by
  simp only [FlushTextureQuadCache, SetBlendEnabled, SetUseProgram]
  split_ifs <;> simp [GLCmd.isScissorStateChange]

/-- Prepending scissor-free commands does not affect the
no-draw-after-scissor property. -/
theorem noDraw_append_scissorFree (t1 t2 : List GLCmd)
    (h : t1.all (fun c => !c.isScissorStateChange) = true) :
    noDrawAfterScissorChange (t1 ++ t2) = noDrawAfterScissorChange t2 := by
  induction t1 with
  | nil => rfl
  | cons c rest ih =>
    simp only [List.all_cons, Bool.and_eq_true, Bool.not_eq_true'] at h
    simp only [List.cons_append, noDrawAfterScissorChange, h.1]
    exact ih h.2

/-- C5: the texture batching cache is flushed at every boundary: a quad
of a non-batchable material is dispatched on a state whose cache has
just been flushed (and a flushed cache is empty); whenever the scissor
routines issue a scissor-rect or scissor-enable state change the
resulting cache is empty and no batched draw call is issued after the
state change; and the end-of-quad-list hook leaves the cache empty. -/
theorem batch_flush_boundaries_spec (frame : DrawingFrame) (s : RState)
    (ext : Externals) (quad : QuadData) (r : RectI) :
    (quad.material ≠ Material.textureContent →
      DoDrawQuad frame s ext quad =
        ((DispatchQuad frame (FlushTextureQuadCache s).1 ext quad).1,
         (FlushTextureQuadCache s).2 ++
           (DispatchQuad frame (FlushTextureQuadCache s).1 ext quad).2)) ∧
    ((s.draw_cache.program_id = 0 → s.draw_cache.IsEmpty) →
      (FlushTextureQuadCache s).1.draw_cache.IsEmpty) ∧
    ((s.draw_cache.program_id = 0 → s.draw_cache.IsEmpty) →
      ((∃ c ∈ (SetScissorTestRect s r).2, c.isScissorStateChange = true) →
        (SetScissorTestRect s r).1.draw_cache.IsEmpty) ∧
      noDrawAfterScissorChange (SetScissorTestRect s r).2 = true ∧
      ((∃ c ∈ (EnsureScissorTestEnabled s).2,
          c.isScissorStateChange = true) →
        (EnsureScissorTestEnabled s).1.draw_cache.IsEmpty) ∧
      noDrawAfterScissorChange (EnsureScissorTestEnabled s).2 = true ∧
      ((∃ c ∈ (EnsureScissorTestDisabled s).2,
          c.isScissorStateChange = true) →
        (EnsureScissorTestDisabled s).1.draw_cache.IsEmpty) ∧
      noDrawAfterScissorChange (EnsureScissorTestDisabled s).2 = true) ∧
    ((s.draw_cache.program_id = 0 → s.draw_cache.IsEmpty) →
      (FinishDrawingQuadList s).1.draw_cache.IsEmpty) := by
  refine ⟨?_, fun hwf => flush_wf_empty s hwf, ?_, fun hwf => flush_wf_empty s hwf⟩
  · intro hmat
    have hb : (quad.material != Material.textureContent) = true :=
      bne_iff_ne.mpr hmat
    simp only [DoDrawQuad, hb]
    simp
  · intro hwf
    have hEmptyFlush := flush_wf_empty s hwf
    by_cases hs : s.is_scissor_enabled = true
    · have hEn : EnsureScissorTestEnabled s = (s, []) := by
        unfold EnsureScissorTestEnabled
        rw [if_pos hs]
      have hDis : EnsureScissorTestDisabled s =
          ({ (FlushTextureQuadCache s).1 with is_scissor_enabled := false },
           (FlushTextureQuadCache s).2 ++ [GLCmd.disableScissor]) := by
        unfold EnsureScissorTestDisabled
        rw [if_neg (by simp [hs])]
      by_cases heq : (r == s.scissor_rect) = true
      · have hSS : SetScissorTestRect s r = (s, []) := by
          unfold SetScissorTestRect
          rw [hEn]
          simp [heq]
        refine ⟨?_, ?_, ?_, ?_, ?_, ?_⟩
        · intro hex
          rw [hSS] at hex
          obtain ⟨c, hc, _⟩ := hex
          simp at hc
        · rw [hSS]
          rfl
        · intro hex
          rw [hEn] at hex
          obtain ⟨c, hc, _⟩ := hex
          simp at hc
        · rw [hEn]
          rfl
        · intro _
          rw [hDis]
          exact hEmptyFlush
        · rw [hDis]
          rw [noDraw_append_scissorFree _ _ (flush_trace_scissorFree _)]
          simp [noDrawAfterScissorChange, GLCmd.isScissorStateChange,
            GLCmd.isDrawCall]
      · have hSS : SetScissorTestRect s r =
            ((FlushTextureQuadCache { s with scissor_rect := r }).1,
             (FlushTextureQuadCache { s with scissor_rect := r }).2 ++
               [GLCmd.scissorRect r.rx r.ry r.rw r.rh]) := by
          unfold SetScissorTestRect
          rw [hEn]
          simp [heq]
        refine ⟨?_, ?_, ?_, ?_, ?_, ?_⟩
        · intro _
          rw [hSS]
          exact flush_wf_empty _ hwf
        · rw [hSS]
          rw [noDraw_append_scissorFree _ _ (flush_trace_scissorFree _)]
          simp [noDrawAfterScissorChange, GLCmd.isScissorStateChange,
            GLCmd.isDrawCall]
        · intro hex
          rw [hEn] at hex
          obtain ⟨c, hc, _⟩ := hex
          simp at hc
        · rw [hEn]
          rfl
        · intro _
          rw [hDis]
          exact hEmptyFlush
        · rw [hDis]
          rw [noDraw_append_scissorFree _ _ (flush_trace_scissorFree _)]
          simp [noDrawAfterScissorChange, GLCmd.isScissorStateChange,
            GLCmd.isDrawCall]
    · have hEn : EnsureScissorTestEnabled s =
          ({ (FlushTextureQuadCache s).1 with is_scissor_enabled := true },
           (FlushTextureQuadCache s).2 ++ [GLCmd.enableScissor]) := by
        unfold EnsureScissorTestEnabled
        rw [if_neg hs]
      have hDis : EnsureScissorTestDisabled s = (s, []) := by
        unfold EnsureScissorTestDisabled
        rw [if_pos (by simp [Bool.not_eq_true] at hs; simp [hs])]
      have hp1cache : ({ (FlushTextureQuadCache s).1 with
          is_scissor_enabled := true } : RState).draw_cache.IsEmpty :=
        hEmptyFlush
      have hp1prog : ({ (FlushTextureQuadCache s).1 with
          is_scissor_enabled := true } : RState).draw_cache.program_id = 0 :=
        hp1cache.1
      by_cases heq : (r == (FlushTextureQuadCache s).1.scissor_rect) = true
      · have hSS : SetScissorTestRect s r =
            ({ (FlushTextureQuadCache s).1 with is_scissor_enabled := true },
             (FlushTextureQuadCache s).2 ++ [GLCmd.enableScissor]) := by
          unfold SetScissorTestRect
          rw [hEn]
          simp [heq]
        refine ⟨?_, ?_, ?_, ?_, ?_, ?_⟩
        · intro _
          rw [hSS]
          exact hp1cache
        · rw [hSS]
          rw [noDraw_append_scissorFree _ _ (flush_trace_scissorFree _)]
          simp [noDrawAfterScissorChange, GLCmd.isScissorStateChange,
            GLCmd.isDrawCall]
        · intro _
          rw [hEn]
          exact hp1cache
        · rw [hEn]
          rw [noDraw_append_scissorFree _ _ (flush_trace_scissorFree _)]
          simp [noDrawAfterScissorChange, GLCmd.isScissorStateChange,
            GLCmd.isDrawCall]
        · intro hex
          rw [hDis] at hex
          obtain ⟨c, hc, _⟩ := hex
          simp at hc
        · rw [hDis]
          rfl
      · have hflush2 : FlushTextureQuadCache
            { ({ (FlushTextureQuadCache s).1 with
                is_scissor_enabled := true } : RState) with
              scissor_rect := r } =
            ({ ({ (FlushTextureQuadCache s).1 with
                is_scissor_enabled := true } : RState) with
              scissor_rect := r }, []) :=
          flush_empty_cache _ hp1prog
        have hSS : SetScissorTestRect s r =
            ({ ({ (FlushTextureQuadCache s).1 with
                is_scissor_enabled := true } : RState) with
              scissor_rect := r },
             ((FlushTextureQuadCache s).2 ++ [GLCmd.enableScissor]) ++
               [GLCmd.scissorRect r.rx r.ry r.rw r.rh]) := by
          unfold SetScissorTestRect
          rw [hEn]
          simp [heq, hflush2]
        refine ⟨?_, ?_, ?_, ?_, ?_, ?_⟩
        · intro _
          rw [hSS]
          exact hp1cache
        · rw [hSS]
          rw [List.append_assoc]
          rw [noDraw_append_scissorFree _ _ (flush_trace_scissorFree _)]
          simp [noDrawAfterScissorChange, GLCmd.isScissorStateChange,
            GLCmd.isDrawCall]
        · intro _
          rw [hEn]
          exact hp1cache
        · rw [hEn]
          rw [noDraw_append_scissorFree _ _ (flush_trace_scissorFree _)]
          simp [noDrawAfterScissorChange, GLCmd.isScissorStateChange,
            GLCmd.isDrawCall]
        · intro hex
          rw [hDis] at hex
          obtain ⟨c, hc, _⟩ := hex
          simp at hc
        · rw [hDis]
          rfl

theorem batch_flush_boundaries_spec_witness :
    ((QuadData.solidColor solidqId).material ≠ Material.textureContent ∧
     (state0.draw_cache.program_id = 0 → state0.draw_cache.IsEmpty) ∧
     (∃ c ∈ (SetScissorTestRect state0 ⟨1, 2, 3, 4⟩).2,
        c.isScissorStateChange = true)) ∧
    DoDrawQuad frame0 state0 ext0 (QuadData.solidColor solidqId) =
      ((DispatchQuad frame0 (FlushTextureQuadCache state0).1 ext0
          (QuadData.solidColor solidqId)).1,
       (FlushTextureQuadCache state0).2 ++
         (DispatchQuad frame0 (FlushTextureQuadCache state0).1 ext0
           (QuadData.solidColor solidqId)).2) ∧
    (FlushTextureQuadCache state0).1.draw_cache.IsEmpty ∧
    (SetScissorTestRect state0 ⟨1, 2, 3, 4⟩).1.draw_cache.IsEmpty ∧
    noDrawAfterScissorChange
      (SetScissorTestRect state0 ⟨1, 2, 3, 4⟩).2 = true ∧
    (FinishDrawingQuadList state0).1.draw_cache.IsEmpty := by
  have h := batch_flush_boundaries_spec frame0 state0 ext0
    (QuadData.solidColor solidqId) ⟨1, 2, 3, 4⟩
  have hwf : state0.draw_cache.program_id = 0 →
      state0.draw_cache.IsEmpty := fun _ => by decide
  have hmat : (QuadData.solidColor solidqId).material ≠
      Material.textureContent := by decide
  have hex : ∃ c ∈ (SetScissorTestRect state0 ⟨1, 2, 3, 4⟩).2,
      c.isScissorStateChange = true := by decide
  obtain ⟨h3a, h3b, _⟩ := h.2.2.1 hwf
  exact ⟨⟨hmat, hwf, hex⟩, h.1 hmat, h.2.1 hwf, h3a hex, h3b,
    h.2.2.2 hwf⟩

end GLRendererModel
